import Mathlib

/-!
Verification of the BigDataProject analytics pipeline.

This file gives a shallow embedding of the repository's core logic:
* the DuckDB SQL aggregation queries of `stage_e_analysis.py` (Q1..Q5),
  modelled over lists of rows with exact rational arithmetic (`ℚ` stands in
  for DuckDB's DOUBLE; `ROUND(x, n)` is modelled as rounding `x * 10^n` to the
  nearest integer, which agrees with the engine away from rounding ties),
* the date-normalization expression of `CreateLake.py`
  (`TRY_STRPTIME` for the two fixed format strings, with the engine's
  numeric-field behavior — each field consumes at least one and at most
  its format width of digits, greedily — plus calendar validation,
  returning `none` on any mismatch),
* the sequential main block of `stage_e_analysis.py` (one `try/except`
  around the whole run),
* the feedback delete-and-renumber routine of `streamlit_app.py`.

SQL conventions used throughout the embedding:
* a table is a `List` of row structures, in materialized order;
* `GROUP BY` produces one row per distinct key (`List.dedup` of the keys),
  aggregating with `List.sum` over the matching rows;
* inner `JOIN` is the filtered cross product;
* `ORDER BY` is `List.insertionSort` (a stable sort, matching the engine's
  unspecified-but-deterministic tie order);
* window functions with `ORDER BY` use the SQL default frame
  `RANGE BETWEEN UNBOUNDED PRECEDING AND CURRENT ROW`, which includes all
  peer rows (rows with an equal sort key).

The file is laid out as definitions first, then all theorems.
-/

namespace BigData

/-! # Definitions -/

/-- `ROUND(x, 2)` of DuckDB, on rationals: round `100 * x` to the nearest
integer and divide back.  (`round` breaks ties upward while the engine
rounds half away from zero; no statement below depends on a tie.) -/
def roundTo2 (x : ℚ) : ℚ := ((round (100 * x) : ℤ) : ℚ) / 100

/-- `ROUND(x, 0)` of DuckDB, on rationals. -/
def roundTo0 (x : ℚ) : ℚ := ((round x : ℤ) : ℚ)

/-!
## Stage E main block (`stage_e_analysis.py`, `__main__`)

The main block runs `process_question_1` .. `process_question_8` (and the
sample/inventory steps) sequentially inside a single `try:` block; the
`except Exception` clause catches any raised error and prints it, and the
`finally` clause closes the connection and vacuums the SQLite file.

We model each aggregation query by its outcome (it either returns normally
or raises an engine-level error) and the main block by the list of flags
saying which queries were attempted: execution is sequential, and the first
raised error aborts the rest of the `try` block (the error itself is caught
at the top level, so the model is a total function).
-/

/-- Outcome of one aggregation query when it is executed. -/
inductive QueryOutcome where
  | ok : QueryOutcome
  | err : QueryOutcome
deriving DecidableEq, Repr

/-- Which queries of the sequential `try:` block get attempted, given each
query's outcome: every query up to and including the first failing one is
attempted, everything after the first raised error is skipped. -/
def runAggregation : List QueryOutcome → List Bool
  | [] => []
  | QueryOutcome.ok :: rest => true :: runAggregation rest
  | QueryOutcome.err :: rest => true :: rest.map (fun _ => false)

/-!
## Date normalization (`CreateLake.py`, `get_date_expression`)

The ingestion stage parses every date column with

  `COALESCE(CAST(TRY_STRPTIME(c, '%Y-%m-%d') AS DATE),
            CAST(TRY_STRPTIME(c, '%d/%m/%Y') AS DATE))`

`TRY_STRPTIME(s, fmt)` is modelled with the engine's numeric-field
behavior: a numeric specifier consumes ASCII digits greedily, at least
one and at most the specifier's width (`%Y` up to four, `%m`/`%d` up to
two), so non-zero-padded values such as `2016-1-1` parse; the literal
separators must match, the whole input must be consumed, and the result
must be a real calendar date (proleptic Gregorian leap rules); on any
failure the result is `none` (never an error).
-/

/-- The ten ASCII digit characters. -/
def digitChars : List Char := ['0', '1', '2', '3', '4', '5', '6', '7', '8', '9']

/-- Is `c` an ASCII digit? -/
def isDig (c : Char) : Bool := digitChars.contains c

/-- Numeric value of an ASCII digit character. -/
def digitVal (c : Char) : Nat := c.toNat - 48

/-- The ASCII digit character for a value `0..9`. -/
def digitChar (n : Nat) : Char := Char.ofNat (48 + n)

/-- A calendar date as produced by `CAST(... AS DATE)`. -/
structure SDate where
  year : Nat
  month : Nat
  day : Nat
deriving DecidableEq, Repr

/-- Gregorian leap-year rule. -/
def isLeapYear (y : Nat) : Bool := (y % 4 == 0 && y % 100 != 0) || (y % 400 == 0)

/-- Number of days of month `m` in year `y`. -/
def daysInMonth (y m : Nat) : Nat :=
  if m = 2 then (if isLeapYear y then 29 else 28)
  else if m = 4 ∨ m = 6 ∨ m = 9 ∨ m = 11 then 30
  else 31

/-- Is `(y, m, d)` a real calendar date? -/
def validDate (y m d : Nat) : Bool :=
  decide (1 ≤ m ∧ m ≤ 12 ∧ 1 ≤ d ∧ d ≤ daysInMonth y m)

/-- Tail of one numeric `strptime` field: greedily consume up to `w` more
digit characters, accumulating their value onto `acc`, and stop at the
first non-digit (or at the width limit, or at the end of input). -/
def parseDigitsAux : Nat → Nat → List Char → Nat × List Char
  | 0, acc, l => (acc, l)
  | _ + 1, acc, [] => (acc, [])
  | w + 1, acc, c :: rest =>
    if isDig c then parseDigitsAux w (10 * acc + digitVal c) rest
    else (acc, c :: rest)

/-- One numeric field of the engine's `strptime`: consume at least one and
at most `w` digit characters, greedily; fail only when the input does not
start with a digit. -/
def parseField (w : Nat) : List Char → Option (Nat × List Char)
  | [] => none
  | c :: rest =>
    if isDig c then some (parseDigitsAux (w - 1) (digitVal c) rest)
    else none

/-- The `%m` / `%d` field: one or two digits. -/
def parse2 : List Char → Option (Nat × List Char) := parseField 2

/-- The `%Y` field: one to four digits. -/
def parse4 : List Char → Option (Nat × List Char) := parseField 4

/-- Does the list *not* continue with a digit (so a greedy numeric field
stops in front of it)? -/
def noDigitHead : List Char → Bool
  | [] => true
  | c :: _ => !isDig c

/-- The numeric value of a digit string, most significant digit first. -/
def digitsVal (l : List Char) : Nat :=
  l.foldl (fun a c => 10 * a + digitVal c) 0

/-- Consume one expected literal character of the format string. -/
def expectChar (c : Char) : List Char → Option (List Char)
  | x :: rest => if x = c then some rest else none
  | [] => none

/-- `TRY_STRPTIME(s, '%Y-%m-%d')` followed by `CAST(... AS DATE)`. -/
def tryStrptimeYmd (s : String) : Option SDate :=
  match parse4 s.data with
  | none => none
  | some (y, r1) =>
    match expectChar '-' r1 with
    | none => none
    | some r2 =>
      match parse2 r2 with
      | none => none
      | some (m, r3) =>
        match expectChar '-' r3 with
        | none => none
        | some r4 =>
          match parse2 r4 with
          | none => none
          | some (d, r5) =>
            if r5.isEmpty && validDate y m d then some ⟨y, m, d⟩ else none

/-- `TRY_STRPTIME(s, '%d/%m/%Y')` followed by `CAST(... AS DATE)`. -/
def tryStrptimeDmy (s : String) : Option SDate :=
  match parse2 s.data with
  | none => none
  | some (d, r1) =>
    match expectChar '/' r1 with
    | none => none
    | some r2 =>
      match parse2 r2 with
      | none => none
      | some (m, r3) =>
        match expectChar '/' r3 with
        | none => none
        | some r4 =>
          match parse4 r4 with
          | none => none
          | some (y, r5) =>
            if r5.isEmpty && validDate y m d then some ⟨y, m, d⟩ else none

/-- The full `COALESCE` expression of `get_date_expression`: try
`%Y-%m-%d` first, fall back to `%d/%m/%Y`, else a missing value. -/
def getDateExpression (s : String) : Option SDate :=
  match tryStrptimeYmd s with
  | some dt => some dt
  | none => tryStrptimeDmy s

/-- Render `n` (`n < 100`) as two zero-padded digits. -/
def pad2 (n : Nat) : List Char := [digitChar (n / 10 % 10), digitChar (n % 10)]

/-- Render `n` (`n < 10000`) as four zero-padded digits. -/
def pad4 (n : Nat) : List Char :=
  [digitChar (n / 1000 % 10), digitChar (n / 100 % 10),
   digitChar (n / 10 % 10), digitChar (n % 10)]

/-- The canonical `YYYY-MM-DD` rendering of a date. -/
def isoString (y m d : Nat) : String :=
  String.mk (pad4 y ++ '-' :: (pad2 m ++ '-' :: pad2 d))

/-- The canonical `DD/MM/YYYY` rendering of a date. -/
def dmyString (d m y : Nat) : String :=
  String.mk (pad2 d ++ '/' :: (pad2 m ++ '/' :: pad4 y))

/-- The strings accepted by the `%Y-%m-%d` format for the date `dt`: a
year field of one to four digits, then a literal dash, a month field of
one or two digits, a dash, and a day field of one or two digits, each
field encoding the corresponding component of `dt`.  (This is exactly the
set of strings on which `tryStrptimeYmd` can succeed; the zero-padded
`isoString` rendering is one member.) -/
def isYmdRendering (l : List Char) (dt : SDate) : Prop :=
  ∃ ys ms ds : List Char,
    l = ys ++ '-' :: (ms ++ '-' :: ds) ∧
    (∀ c ∈ ys, isDig c = true) ∧ 1 ≤ ys.length ∧ ys.length ≤ 4 ∧
    (∀ c ∈ ms, isDig c = true) ∧ 1 ≤ ms.length ∧ ms.length ≤ 2 ∧
    (∀ c ∈ ds, isDig c = true) ∧ 1 ≤ ds.length ∧ ds.length ≤ 2 ∧
    dt.year = digitsVal ys ∧ dt.month = digitsVal ms ∧ dt.day = digitsVal ds

/-- The strings accepted by the `%d/%m/%Y` format for the date `dt`:
day (one or two digits), slash, month (one or two digits), slash, year
(one to four digits). -/
def isDmyRendering (l : List Char) (dt : SDate) : Prop :=
  ∃ ds ms ys : List Char,
    l = ds ++ '/' :: (ms ++ '/' :: ys) ∧
    (∀ c ∈ ds, isDig c = true) ∧ 1 ≤ ds.length ∧ ds.length ≤ 2 ∧
    (∀ c ∈ ms, isDig c = true) ∧ 1 ≤ ms.length ∧ ms.length ≤ 2 ∧
    (∀ c ∈ ys, isDig c = true) ∧ 1 ≤ ys.length ∧ ys.length ≤ 4 ∧
    dt.day = digitsVal ds ∧ dt.month = digitsVal ms ∧ dt.year = digitsVal ys

/-!
## Feedback table delete-and-renumber (`streamlit_app.py`, `page_feedback`)

The feedback table has schema
`(id autoincrement, created_at, user_name, page, rating, comment)`.
The admin delete handler runs, in order:
1. `DELETE FROM feedback WHERE id = ?` with the selected id;
2. reads the survivors with `SELECT * FROM feedback ORDER BY created_at ASC`;
3. if any survive: `DELETE FROM feedback`, resets the autoincrement
   sequence, and reinserts each survivor (columns
   `created_at, user_name, page, rating, comment`, id omitted), so the
   fresh autoincrement assigns ids `1, 2, 3, ...` in reinsertion order;
   if none survive it only resets the sequence.

`created_at` is stored as a `datetime('now')` text; in that fixed format
lexicographic text order coincides with chronological order, so we model
the timestamp as a `Nat`.
-/

structure FeedbackRow where
  id : Nat
  created_at : Nat
  user_name : String
  page : String
  rating : Int
  comment : String
deriving DecidableEq, Repr

/-- `ORDER BY created_at ASC`. -/
def createdLe (a b : FeedbackRow) : Prop := a.created_at ≤ b.created_at

instance : DecidableRel createdLe := fun a b => Nat.decLe a.created_at b.created_at

instance : IsTotal FeedbackRow createdLe :=
  ⟨fun a b => Nat.le_total a.created_at b.created_at⟩

instance : IsTrans FeedbackRow createdLe := ⟨fun _ _ _ => Nat.le_trans⟩

/-- The non-id columns of a feedback row (everything the reinsertion
copies through verbatim). -/
def FeedbackRow.content (r : FeedbackRow) : Nat × String × String × Int × String :=
  (r.created_at, r.user_name, r.page, r.rating, r.comment)

/-- Reinsertion into the emptied table with a freshly reset autoincrement
counter: the row at position `j` of the reinserted list receives id
`next + j`, all other columns are copied unchanged. -/
def assignIds : Nat → List FeedbackRow → List FeedbackRow
  | _, [] => []
  | next, r :: rest => { r with id := next } :: assignIds (next + 1) rest

/-- Steps 2–3 of the delete handler on a nonempty survivor set: sort by
`created_at` ascending, delete all, reset the sequence, reinsert (ids
restart at 1). -/
def renumberFeedback (rows : List FeedbackRow) : List FeedbackRow :=
  assignIds 1 (List.insertionSort createdLe rows)

/-- The whole admin delete handler: delete the selected id, then renumber
the survivors (or just reset the counter when nothing survives). -/
def deleteFeedback (delete_id : Nat) (table : List FeedbackRow) : List FeedbackRow :=
  let remaining := table.filter (fun r => r.id != delete_id)
  if remaining.isEmpty then [] else renumberFeedback remaining

/-!
## Lake table schemas (`CreateLake.py`, `load_data`)

Row types for the lake tables used by the aggregation queries.  Numeric
measure columns (`unit_sales`, oil price) are DOUBLEs in the engine,
modelled as `ℚ`; `transactions` is an integer count.  The holidays CSV's
`type` column is renamed `holidayType` (`type` words poorly in Lean) and
its `transferred` column is a boolean (the source compares it with the
string `'false'`, which the engine casts to boolean `false`).
-/

structure TrainRow where
  id : Nat
  date : SDate
  store_nbr : Nat
  item_nbr : Nat
  unit_sales : ℚ
  onpromotion : Bool
deriving DecidableEq, Repr

structure ItemRow where
  item_nbr : Nat
  family : String
  classId : Nat
  perishable : Nat
deriving DecidableEq, Repr

structure StoreRow where
  store_nbr : Nat
  city : String
  state : String
  storeType : String
  cluster : Nat
deriving DecidableEq, Repr

structure TransactionRow where
  date : SDate
  store_nbr : Nat
  transactions : Int
deriving DecidableEq, Repr

structure HolidayRow where
  date : SDate
  holidayType : String
  locale : String
  locale_name : String
  description : String
  transferred : Bool
deriving DecidableEq, Repr

/-!
## Q1: Pareto analysis (`process_question_1`)

```sql
WITH item_sales AS (
  SELECT i.item_nbr, i.family, SUM(t.unit_sales) as total_sales
  FROM train t JOIN items i ON t.item_nbr = i.item_nbr GROUP BY 1, 2),
calc_running_total AS (
  SELECT item_nbr, family, total_sales,
    SUM(total_sales) OVER (ORDER BY total_sales DESC) as running_total,
    SUM(total_sales) OVER () as grand_total
  FROM item_sales)
SELECT item_nbr, family, total_sales,
  ROUND((running_total / grand_total) * 100, 2) as cumulative_pct,
  CASE WHEN (running_total / grand_total) <= 0.80 THEN 'Top 80% (Core Revenue)'
       ELSE 'Bottom 20% (Dead Stock / Long Tail)' END as pareto_group
FROM calc_running_total ORDER BY total_sales DESC;
```
-/

/-- `FROM train t JOIN items i ON t.item_nbr = i.item_nbr`. -/
def trainItems (train : List TrainRow) (items : List ItemRow) :
    List (TrainRow × ItemRow) :=
  train.flatMap (fun t =>
    (items.filter (fun i => i.item_nbr == t.item_nbr)).map (fun i => (t, i)))

structure ItemSalesRow where
  item_nbr : Nat
  family : String
  total_sales : ℚ
deriving DecidableEq, Repr

/-- The `item_sales` CTE: `GROUP BY i.item_nbr, i.family` with
`SUM(t.unit_sales)`. -/
def itemSales (train : List TrainRow) (items : List ItemRow) : List ItemSalesRow :=
  let joined := trainItems train items
  ((joined.map (fun p => (p.2.item_nbr, p.2.family))).dedup).map (fun k =>
    { item_nbr := k.1, family := k.2,
      total_sales := ((joined.filter (fun p =>
        p.2.item_nbr == k.1 && p.2.family == k.2)).map
          (fun p => p.1.unit_sales)).sum })

/-- `SUM(total_sales) OVER (ORDER BY total_sales DESC)` with the SQL
default `RANGE` frame: for a row with total `t` this is the sum over all
rows whose total is `≥ t` (peer rows with an equal total are included, so
the value does not depend on the engine's tie order). -/
def runningTotal (sales : List ItemSalesRow) (t : ℚ) : ℚ :=
  ((sales.filter (fun x => t ≤ x.total_sales)).map (fun x => x.total_sales)).sum

/-- `SUM(total_sales) OVER ()`. -/
def grandTotal (sales : List ItemSalesRow) : ℚ :=
  (sales.map (fun x => x.total_sales)).sum

/-- The cumulative sales share of an item aggregate with total `t`:
running total (ordered by total sales descending) over grand total. -/
def cumulativeShare (sales : List ItemSalesRow) (t : ℚ) : ℚ :=
  runningTotal sales t / grandTotal sales

structure Q1Row where
  item_nbr : Nat
  family : String
  total_sales : ℚ
  cumulative_pct : ℚ
  pareto_group : String
deriving DecidableEq, Repr

/-- `ORDER BY total_sales DESC`. -/
def q1TotalDesc (a b : ItemSalesRow) : Prop := b.total_sales ≤ a.total_sales

instance : DecidableRel q1TotalDesc :=
  fun a b => inferInstanceAs (Decidable (b.total_sales ≤ a.total_sales))

instance : IsTotal ItemSalesRow q1TotalDesc :=
  ⟨fun a b => le_total b.total_sales a.total_sales⟩

instance : IsTrans ItemSalesRow q1TotalDesc :=
  ⟨fun _ _ _ h1 h2 => le_trans h2 h1⟩

/-- The materialized table `gold.q1_pareto_analysis`. -/
def q1Rows (train : List TrainRow) (items : List ItemRow) : List Q1Row :=
  let sales := itemSales train items
  (List.insertionSort q1TotalDesc sales).map (fun r =>
    { item_nbr := r.item_nbr, family := r.family, total_sales := r.total_sales,
      cumulative_pct :=
        roundTo2 (runningTotal sales r.total_sales / grandTotal sales * 100),
      pareto_group :=
        if runningTotal sales r.total_sales / grandTotal sales ≤ 0.80 then
          "Top 80% (Core Revenue)"
        else "Bottom 20% (Dead Stock / Long Tail)" })

/-!
## Q2: perishable year-over-year growth (`process_question_2`)

```sql
WITH annual_perishable_sales AS (
  SELECT s.store_nbr, s.city, EXTRACT(YEAR FROM t.date) as sales_year,
         SUM(t.unit_sales) as total_perishable_sales
  FROM train t JOIN items i ON t.item_nbr = i.item_nbr
               JOIN stores s ON t.store_nbr = s.store_nbr
  WHERE i.perishable = 1 GROUP BY s.store_nbr, s.city, sales_year),
growth_calculation AS (
  SELECT store_nbr, city, sales_year, total_perishable_sales,
    LAG(total_perishable_sales) OVER
      (PARTITION BY store_nbr ORDER BY sales_year) as prev_year_sales
  FROM annual_perishable_sales)
SELECT city, sales_year, ROUND(total_perishable_sales, 0) as current_sales,
  ROUND(prev_year_sales, 0) as previous_sales,
  ROUND(((total_perishable_sales - prev_year_sales) / prev_year_sales) * 100, 2)
    as growth_pct
FROM growth_calculation
WHERE sales_year = 2016 AND prev_year_sales IS NOT NULL
ORDER BY total_perishable_sales DESC LIMIT 20;
```
-/

/-- `train JOIN items JOIN stores WHERE i.perishable = 1`. -/
def perishableJoined (train : List TrainRow) (items : List ItemRow)
    (stores : List StoreRow) : List (TrainRow × ItemRow × StoreRow) :=
  ((trainItems train items).flatMap (fun p =>
    (stores.filter (fun s => s.store_nbr == p.1.store_nbr)).map
      (fun s => (p.1, p.2, s)))).filter (fun q => q.2.1.perishable == 1)

structure AnnualRow where
  store_nbr : Nat
  city : String
  sales_year : Nat
  total_perishable_sales : ℚ
deriving DecidableEq, Repr

/-- The `annual_perishable_sales` CTE. -/
def annualPerishable (train : List TrainRow) (items : List ItemRow)
    (stores : List StoreRow) : List AnnualRow :=
  let joined := perishableJoined train items stores
  ((joined.map (fun q => (q.2.2.store_nbr, q.2.2.city, q.1.date.year))).dedup).map
    (fun k =>
      { store_nbr := k.1, city := k.2.1, sales_year := k.2.2,
        total_perishable_sales := ((joined.filter (fun q =>
          q.2.2.store_nbr == k.1 && q.2.2.city == k.2.1 &&
            q.1.date.year == k.2.2)).map (fun q => q.1.unit_sales)).sum })

/-- `ORDER BY sales_year` inside a partition. -/
def yearAsc (a b : AnnualRow) : Prop := a.sales_year ≤ b.sales_year

instance : DecidableRel yearAsc :=
  fun a b => inferInstanceAs (Decidable (a.sales_year ≤ b.sales_year))

instance : IsTotal AnnualRow yearAsc :=
  ⟨fun a b => Nat.le_total a.sales_year b.sales_year⟩

instance : IsTrans AnnualRow yearAsc := ⟨fun _ _ _ => Nat.le_trans⟩

/-- `LAG(total_perishable_sales) OVER (PARTITION BY store_nbr ORDER BY
sales_year)`: the total of the positional predecessor of `g` in its
store's partition sorted by year, or NULL for the partition's first row. -/
def lagPrevSales (annual : List AnnualRow) (g : AnnualRow) : Option ℚ :=
  let part := List.insertionSort yearAsc
    (annual.filter (fun b => b.store_nbr == g.store_nbr))
  match part.indexOf g with
  | 0 => none
  | Nat.succ j => (part.get? j).map (fun b => b.total_perishable_sales)

structure GrowthRow where
  store_nbr : Nat
  city : String
  sales_year : Nat
  total_perishable_sales : ℚ
  prev_year_sales : Option ℚ
deriving DecidableEq, Repr

/-- The `growth_calculation` CTE. -/
def growthCalc (train : List TrainRow) (items : List ItemRow)
    (stores : List StoreRow) : List GrowthRow :=
  let annual := annualPerishable train items stores
  annual.map (fun g =>
    { store_nbr := g.store_nbr, city := g.city, sales_year := g.sales_year,
      total_perishable_sales := g.total_perishable_sales,
      prev_year_sales := lagPrevSales annual g })

/-- `ORDER BY total_perishable_sales DESC`. -/
def growthDesc (a b : GrowthRow) : Prop :=
  b.total_perishable_sales ≤ a.total_perishable_sales

instance : DecidableRel growthDesc :=
  fun a b =>
    inferInstanceAs (Decidable (b.total_perishable_sales ≤ a.total_perishable_sales))

instance : IsTotal GrowthRow growthDesc :=
  ⟨fun a b => le_total b.total_perishable_sales a.total_perishable_sales⟩

instance : IsTrans GrowthRow growthDesc :=
  ⟨fun _ _ _ h1 h2 => le_trans h2 h1⟩

/-- `WHERE sales_year = 2016 AND prev_year_sales IS NOT NULL ORDER BY
total_perishable_sales DESC LIMIT 20`, before the final projection. -/
def q2Selected (train : List TrainRow) (items : List ItemRow)
    (stores : List StoreRow) : List GrowthRow :=
  (List.insertionSort growthDesc ((growthCalc train items stores).filter
    (fun g => g.sales_year == 2016 && g.prev_year_sales.isSome))).take 20

structure Q2Row where
  city : String
  sales_year : Nat
  current_sales : ℚ
  previous_sales : Option ℚ
  growth_pct : Option ℚ
deriving DecidableEq, Repr

/-- The final `SELECT` list of Q2 (arithmetic on a NULL yields NULL). -/
def q2Project (g : GrowthRow) : Q2Row :=
  { city := g.city, sales_year := g.sales_year,
    current_sales := roundTo0 g.total_perishable_sales,
    previous_sales := g.prev_year_sales.map roundTo0,
    growth_pct := g.prev_year_sales.map (fun p =>
      roundTo2 ((g.total_perishable_sales - p) / p * 100)) }

/-- The materialized table `gold.q2_perishable_growth`. -/
def q2Rows (train : List TrainRow) (items : List ItemRow)
    (stores : List StoreRow) : List Q2Row :=
  (q2Selected train items stores).map q2Project

/-- Claim-side helper: the store's annual perishable aggregate for one
calendar year, if it exists. -/
def annualLookup (annual : List AnnualRow) (store year : Nat) : Option ℚ :=
  (annual.find? (fun g => g.store_nbr == store && g.sales_year == year)).map
    (fun g => g.total_perishable_sales)

/-!
## Q3: top-3 product families per city (`process_question_3`)

```sql
SELECT s.city, i.family, ROUND(SUM(t.unit_sales), 2) as total_sold,
  RANK() OVER (PARTITION BY s.city ORDER BY SUM(t.unit_sales) DESC)
    as rank_in_city
FROM train t JOIN stores s ON t.store_nbr = s.store_nbr
             JOIN items i ON t.item_nbr = i.item_nbr
GROUP BY s.city, i.family
QUALIFY rank_in_city <= 3
ORDER BY s.city, rank_in_city;
```
-/

/-- `train JOIN stores JOIN items`. -/
def trainStoresItems (train : List TrainRow) (stores : List StoreRow)
    (items : List ItemRow) : List (TrainRow × StoreRow × ItemRow) :=
  train.flatMap (fun t =>
    (stores.filter (fun s => s.store_nbr == t.store_nbr)).flatMap (fun s =>
      (items.filter (fun i => i.item_nbr == t.item_nbr)).map
        (fun i => (t, s, i))))

structure Q3Group where
  city : String
  family : String
  total : ℚ
deriving DecidableEq, Repr

/-- The `(city, family)` aggregates with their unrounded quantity sums. -/
def q3Groups (train : List TrainRow) (stores : List StoreRow)
    (items : List ItemRow) : List Q3Group :=
  let joined := trainStoresItems train stores items
  ((joined.map (fun q => (q.2.1.city, q.2.2.family))).dedup).map (fun k =>
    { city := k.1, family := k.2,
      total := ((joined.filter (fun q =>
        q.2.1.city == k.1 && q.2.2.family == k.2)).map
          (fun q => q.1.unit_sales)).sum })

/-- `RANK() OVER (PARTITION BY s.city ORDER BY SUM(t.unit_sales) DESC)`:
one plus the number of same-city aggregates with a strictly larger total
(tied totals receive equal rank). -/
def rankInCity (groups : List Q3Group) (g : Q3Group) : Nat :=
  1 + (groups.filter (fun x => x.city == g.city && decide (g.total < x.total))).length

structure Q3Row where
  city : String
  family : String
  total_sold : ℚ
  rank_in_city : Nat
deriving DecidableEq, Repr

/-- The final `SELECT` list of Q3. -/
def q3Out (groups : List Q3Group) (g : Q3Group) : Q3Row :=
  { city := g.city, family := g.family, total_sold := roundTo2 g.total,
    rank_in_city := rankInCity groups g }

/-- Strict lexicographic order on character lists (the engine's string
collation for `ORDER BY` on a text column). -/
def charListLt : List Char → List Char → Bool
  | [], [] => false
  | [], _ :: _ => true
  | _ :: _, [] => false
  | a :: as, b :: bs =>
    if a.toNat < b.toNat then true
    else if b.toNat < a.toNat then false
    else charListLt as bs

/-- Strict order on strings, by their characters. -/
def stringLt (a b : String) : Bool := charListLt a.data b.data

/-- `ORDER BY s.city, rank_in_city`. -/
def q3Order (a b : Q3Row) : Prop :=
  stringLt a.city b.city = true ∨
    (a.city = b.city ∧ a.rank_in_city ≤ b.rank_in_city)

instance : DecidableRel q3Order :=
  fun a b => inferInstanceAs
    (Decidable (stringLt a.city b.city = true ∨
      (a.city = b.city ∧ a.rank_in_city ≤ b.rank_in_city)))

/-- The materialized table `gold.q3_top_products_city`
(`QUALIFY rank_in_city <= 3`). -/
def q3Rows (train : List TrainRow) (stores : List StoreRow)
    (items : List ItemRow) : List Q3Row :=
  let groups := q3Groups train stores items
  List.insertionSort q3Order
    ((groups.filter (fun g => decide (rankInCity groups g ≤ 3))).map
      (q3Out groups))

/-!
## Q4: basket size by city (`process_question_4`)

```sql
WITH daily_sales_agg AS (
  SELECT store_nbr, date, SUM(unit_sales) as daily_items
  FROM train GROUP BY store_nbr, date),
city_stats AS (
  SELECT s.city, SUM(dsa.daily_items) as total_items_sold,
         SUM(tr.transactions) as total_transactions
  FROM daily_sales_agg dsa
  JOIN transactions tr ON dsa.store_nbr = tr.store_nbr AND dsa.date = tr.date
  JOIN stores s ON dsa.store_nbr = s.store_nbr
  GROUP BY s.city)
SELECT city, total_items_sold, total_transactions,
  ROUND(total_items_sold / total_transactions, 2) as avg_basket_size,
  DENSE_RANK() OVER (ORDER BY (total_items_sold / total_transactions) DESC)
    as city_rank
FROM city_stats ORDER BY city_rank;
```
-/

structure DailySalesRow where
  store_nbr : Nat
  date : SDate
  daily_items : ℚ
deriving DecidableEq, Repr

/-- The `daily_sales_agg` CTE. -/
def dailySalesAgg (train : List TrainRow) : List DailySalesRow :=
  ((train.map (fun t => (t.store_nbr, t.date))).dedup).map (fun k =>
    { store_nbr := k.1, date := k.2,
      daily_items := ((train.filter (fun t =>
        t.store_nbr == k.1 && t.date == k.2)).map
          (fun t => t.unit_sales)).sum })

/-- `daily_sales_agg JOIN transactions JOIN stores`. -/
def dsaTransStores (train : List TrainRow) (transactions : List TransactionRow)
    (stores : List StoreRow) :
    List (DailySalesRow × TransactionRow × StoreRow) :=
  (dailySalesAgg train).flatMap (fun d =>
    (transactions.filter (fun tr =>
      d.store_nbr == tr.store_nbr && d.date == tr.date)).flatMap (fun tr =>
        (stores.filter (fun s => d.store_nbr == s.store_nbr)).map
          (fun s => (d, tr, s))))

structure CityStatRow where
  city : String
  total_items_sold : ℚ
  total_transactions : Int
deriving DecidableEq, Repr

/-- The `city_stats` CTE. -/
def cityStats (train : List TrainRow) (transactions : List TransactionRow)
    (stores : List StoreRow) : List CityStatRow :=
  let joined := dsaTransStores train transactions stores
  ((joined.map (fun q => q.2.2.city)).dedup).map (fun c =>
    { city := c,
      total_items_sold := ((joined.filter (fun q => q.2.2.city == c)).map
        (fun q => q.1.daily_items)).sum,
      total_transactions := ((joined.filter (fun q => q.2.2.city == c)).map
        (fun q => q.2.1.transactions)).sum })

/-- The unrounded basket size `total_items_sold / total_transactions`. -/
def basketSize (items : ℚ) (trans : Int) : ℚ := items / (trans : ℚ)

/-- `DENSE_RANK() OVER (ORDER BY v DESC)`: one plus the number of
*distinct* values strictly larger than `v`. -/
def denseRankDesc (vals : List ℚ) (v : ℚ) : Nat :=
  1 + ((vals.filter (fun w => decide (v < w))).dedup).length

structure Q4Row where
  city : String
  total_items_sold : ℚ
  total_transactions : Int
  avg_basket_size : ℚ
  city_rank : Nat
deriving DecidableEq, Repr

/-- `ORDER BY city_rank`. -/
def q4RankAsc (a b : Q4Row) : Prop := a.city_rank ≤ b.city_rank

instance : DecidableRel q4RankAsc :=
  fun a b => inferInstanceAs (Decidable (a.city_rank ≤ b.city_rank))

/-- The materialized table `gold.q4_basket_size_analysis`. -/
def q4Rows (train : List TrainRow) (transactions : List TransactionRow)
    (stores : List StoreRow) : List Q4Row :=
  let cs := cityStats train transactions stores
  let vals := cs.map (fun c => basketSize c.total_items_sold c.total_transactions)
  List.insertionSort q4RankAsc (cs.map (fun c =>
    { city := c.city, total_items_sold := c.total_items_sold,
      total_transactions := c.total_transactions,
      avg_basket_size := roundTo2 (basketSize c.total_items_sold c.total_transactions),
      city_rank := denseRankDesc vals
        (basketSize c.total_items_sold c.total_transactions) }))

/-!
## Q5: local vs. national holiday impact (`process_question_5`)

```sql
WITH city_daily_sales AS (
  SELECT s.city, t.date, SUM(t.unit_sales) as total_daily_sales
  FROM train t JOIN stores s ON t.store_nbr = s.store_nbr
  GROUP BY s.city, t.date),
holiday_stats_raw AS (
  SELECT cs.city,
    MAX(CASE WHEN h.locale = 'National' THEN cs.total_daily_sales END)
      as national_avg_raw,
    MAX(CASE WHEN h.locale = 'Local' AND h.locale_name = cs.city
        THEN cs.total_daily_sales END) as local_avg_raw
  FROM city_daily_sales cs JOIN holidays_events h ON cs.date = h.date
  WHERE h.type = 'Holiday' AND h.transferred = 'false'
  GROUP BY cs.city, h.locale),
final_averages AS (
  SELECT city, AVG(national_avg_raw) as national_holiday_avg,
    AVG(local_avg_raw) as local_holiday_avg
  FROM holiday_stats_raw GROUP BY city
  HAVING local_holiday_avg IS NOT NULL)
SELECT city, ROUND(national_holiday_avg, 2) as national_holiday_avg,
  ROUND(local_holiday_avg, 2) as local_holiday_avg,
  CASE WHEN local_holiday_avg > national_holiday_avg THEN 'Local'
       ELSE 'National' END as winner_type,
  RANK() OVER (ORDER BY local_holiday_avg DESC) as local_holiday_rank
FROM final_averages ORDER BY local_holiday_rank;
```
-/

/-- SQL `MAX` over a nullable expression: NULL inputs are ignored and the
aggregate is NULL when every input is NULL. -/
def sqlMax (l : List (Option ℚ)) : Option ℚ :=
  match l.filterMap id with
  | [] => none
  | x :: xs => some (xs.foldl max x)

/-- SQL `AVG` over a nullable expression: NULL inputs are ignored and the
aggregate is NULL when every input is NULL. -/
def sqlAvg (l : List (Option ℚ)) : Option ℚ :=
  match l.filterMap id with
  | [] => none
  | x :: xs => some ((x :: xs).sum / ((x :: xs).length : ℚ))

structure CityDailyRow where
  city : String
  date : SDate
  total_daily_sales : ℚ
deriving DecidableEq, Repr

/-- The `city_daily_sales` CTE. -/
def cityDailySales (train : List TrainRow) (stores : List StoreRow) :
    List CityDailyRow :=
  let joined := train.flatMap (fun t =>
    (stores.filter (fun s => s.store_nbr == t.store_nbr)).map (fun s => (t, s)))
  ((joined.map (fun p => (p.2.city, p.1.date))).dedup).map (fun k =>
    { city := k.1, date := k.2,
      total_daily_sales := ((joined.filter (fun p =>
        p.2.city == k.1 && p.1.date == k.2)).map
          (fun p => p.1.unit_sales)).sum })

/-- `city_daily_sales JOIN holidays_events ON cs.date = h.date WHERE
h.type = 'Holiday' AND h.transferred = 'false'`. -/
def holidayJoined (train : List TrainRow) (stores : List StoreRow)
    (holidays : List HolidayRow) : List (CityDailyRow × HolidayRow) :=
  (cityDailySales train stores).flatMap (fun cs =>
    (holidays.filter (fun h =>
      cs.date == h.date && h.holidayType == "Holiday" &&
        h.transferred == false)).map (fun h => (cs, h)))

structure HolidayStatsRow where
  city : String
  locale : String
  national_avg_raw : Option ℚ
  local_avg_raw : Option ℚ
deriving DecidableEq, Repr

/-- The `holiday_stats_raw` CTE (`GROUP BY cs.city, h.locale`). -/
def holidayStatsRaw (train : List TrainRow) (stores : List StoreRow)
    (holidays : List HolidayRow) : List HolidayStatsRow :=
  let joined := holidayJoined train stores holidays
  ((joined.map (fun q => (q.1.city, q.2.locale))).dedup).map (fun k =>
    let grp := joined.filter (fun q => q.1.city == k.1 && q.2.locale == k.2)
    { city := k.1, locale := k.2,
      national_avg_raw := sqlMax (grp.map (fun q =>
        if q.2.locale == "National" then some q.1.total_daily_sales else none)),
      local_avg_raw := sqlMax (grp.map (fun q =>
        if q.2.locale == "Local" && q.2.locale_name == q.1.city then
          some q.1.total_daily_sales
        else none)) })

structure FinalAvgRow where
  city : String
  national_holiday_avg : Option ℚ
  local_holiday_avg : ℚ
deriving DecidableEq, Repr

/-- The `final_averages` CTE (`GROUP BY city HAVING local_holiday_avg IS
NOT NULL`; the HAVING clause makes `local_holiday_avg` non-NULL). -/
def finalAverages (train : List TrainRow) (stores : List StoreRow)
    (holidays : List HolidayRow) : List FinalAvgRow :=
  let hsr := holidayStatsRaw train stores holidays
  ((hsr.map (fun r => r.city)).dedup).filterMap (fun c =>
    let grp := hsr.filter (fun r => r.city == c)
    match sqlAvg (grp.map (fun r => r.local_avg_raw)) with
    | none => none
    | some lv => some
        { city := c,
          national_holiday_avg := sqlAvg (grp.map (fun r => r.national_avg_raw)),
          local_holiday_avg := lv })

/-- `RANK() OVER (ORDER BY local_holiday_avg DESC)`. -/
def q5Rank (fas : List FinalAvgRow) (v : ℚ) : Nat :=
  1 + (fas.filter (fun r => decide (v < r.local_holiday_avg))).length

structure Q5Row where
  city : String
  national_holiday_avg : Option ℚ
  local_holiday_avg : ℚ
  winner_type : String
  local_holiday_rank : Nat
deriving DecidableEq, Repr

/-- `ORDER BY local_holiday_rank`. -/
def q5RankAsc (a b : Q5Row) : Prop :=
  a.local_holiday_rank ≤ b.local_holiday_rank

instance : DecidableRel q5RankAsc :=
  fun a b => inferInstanceAs (Decidable (a.local_holiday_rank ≤ b.local_holiday_rank))

/-- The materialized table `gold.q5_holiday_impact`.  In the `CASE`
comparison `local > NULL` is NULL in SQL, so the `ELSE` branch fires
when the national average is NULL. -/
def q5Rows (train : List TrainRow) (stores : List StoreRow)
    (holidays : List HolidayRow) : List Q5Row :=
  let fas := finalAverages train stores holidays
  List.insertionSort q5RankAsc (fas.map (fun r =>
    { city := r.city,
      national_holiday_avg := r.national_holiday_avg.map roundTo2,
      local_holiday_avg := roundTo2 r.local_holiday_avg,
      winner_type :=
        match r.national_holiday_avg with
        | none => "National"
        | some nv => if nv < r.local_holiday_avg then "Local" else "National",
      local_holiday_rank := q5Rank fas r.local_holiday_avg }))

/-- Claim-side: is `d` a day tagged as a national, non-transferred
holiday? -/
def isNationalHolidayDay (holidays : List HolidayRow) (d : SDate) : Bool :=
  holidays.any (fun h => h.date == d && h.holidayType == "Holiday" &&
    h.locale == "National" && h.transferred == false)

/-- Claim-side reference value for Q5 (follows the claim's words, to be
compared with what the code computes): the arithmetic mean of the city's
total daily sales over its days tagged as a national, non-transferred
holiday; NULL when the city has no such day. -/
def specNationalHolidayAvg (train : List TrainRow) (stores : List StoreRow)
    (holidays : List HolidayRow) (city : String) : Option ℚ :=
  let vals := ((cityDailySales train stores).filter (fun cs =>
    cs.city == city && isNationalHolidayDay holidays cs.date)).map
      (fun cs => cs.total_daily_sales)
  if vals.length = 0 then none else some (vals.sum / (vals.length : ℚ))

/-! # Theorems -/

section

/- The Batteries rational-number operations are marked `@[irreducible]`,
which blocks `decide` from evaluating concrete tables; restore the
default reducibility locally so that concrete witnesses can be checked by
evaluation. -/
attribute [local semireducible] Rat.add Rat.mul Rat.sub Rat.inv Rat.ofScientific

theorem roundTo2_mono {x y : ℚ} (h : x ≤ y) : roundTo2 x ≤ roundTo2 y := by
  unfold roundTo2
  have h1 : round (100 * x) ≤ round (100 * y) := by
    rw [round_eq, round_eq]
    exact Int.floor_le_floor (by linarith)
  have h2 : ((round (100 * x) : ℤ) : ℚ) ≤ ((round (100 * y) : ℤ) : ℚ) := by
    exact_mod_cast h1
  linarith

/-! ## C1: failure policy of the aggregation stage -/

theorem runAggregation_length (qs : List QueryOutcome) :
    (runAggregation qs).length = qs.length := by
  induction qs with
  | nil => rfl
  | cons q rest ih =>
    cases q <;> simp [runAggregation, ih]

/-- **C1, counterexample.**  The claim states: whenever some aggregation
query raises an error, every *other* query is still attempted.  This is
false for the code: the whole run shares one `try/except`, so with the first
query failing (`[err, ok]`) the second query is never attempted. -/
theorem C1_counterexample :
    ¬ (∀ (qs : List QueryOutcome) (i : Nat), i < qs.length →
        qs.getD i QueryOutcome.ok = QueryOutcome.err →
        ∀ j : Nat, j < qs.length → j ≠ i →
        (runAggregation qs).getD j false = true) := by
  intro h
  have := h [QueryOutcome.err, QueryOutcome.ok] 0 (by decide) (by decide) 1
    (by decide) (by decide)
  simp [runAggregation] at this

/-- **C1, amended.**  In the aggregation stage all queries run inside one
`try` block: a query is attempted if and only if every query before it
returned without error.  (The first raised error is caught and reported
once at the top level — the model is a total function — but the queries
after it are never attempted.) -/
theorem C1_amended (qs : List QueryOutcome) (i : Nat) (h : i < qs.length) :
    (runAggregation qs).getD i false = true ↔
      ∀ j : Nat, j < i → qs.getD j QueryOutcome.ok ≠ QueryOutcome.err := by
  induction qs generalizing i with
  | nil => simp at h
  | cons q rest ih =>
    cases q with
    | ok =>
      cases i with
      | zero => simp [runAggregation]
      | succ i =>
        simp only [runAggregation, List.getD_cons_succ]
        rw [ih i (by simpa using h)]
        constructor
        · intro hall j hj
          cases j with
          | zero => simp [List.getD_cons_zero]
          | succ j => simpa using hall j (by omega)
        · intro hall j hj
          simpa using hall (j + 1) (by omega)
    | err =>
      cases i with
      | zero => simp [runAggregation]
      | succ i =>
        simp only [runAggregation, List.getD_cons_succ]
        constructor
        · intro hfalse
          exfalso
          have hlen : i < rest.length := by simpa using h
          have : (rest.map (fun _ => false)).getD i false = false := by
            rcases List.getD_eq_getElem?_getD (rest.map (fun _ => false)) i false with h'
            rw [h']
            rw [List.getElem?_eq_getElem (by simpa using hlen)]
            simp
          rw [this] at hfalse
          exact Bool.false_ne_true hfalse
        · intro hall
          have h0 := hall 0 (by omega)
          simp [List.getD_cons_zero] at h0

/-- **C1, witness** for the amended theorem, at `qs = [ok, err, ok]`,
`i = 2`: the third query is not attempted, and indeed the second query's
outcome is an error. -/
theorem C1_witness :
    (2 < ([QueryOutcome.ok, QueryOutcome.err, QueryOutcome.ok] :
        List QueryOutcome).length) ∧
    ((runAggregation [QueryOutcome.ok, QueryOutcome.err, QueryOutcome.ok]).getD
        2 false = true ↔
      ∀ j : Nat, j < 2 →
        ([QueryOutcome.ok, QueryOutcome.err,
          QueryOutcome.ok].getD j QueryOutcome.ok ≠ QueryOutcome.err)) :=
  ⟨by decide, C1_amended [QueryOutcome.ok, QueryOutcome.err, QueryOutcome.ok]
    2 (by decide)⟩

/-! ## C8: totality and correctness of the ingestion date parser -/

theorem isDig_digitChar {n : Nat} (h : n < 10) : isDig (digitChar n) = true := by
  interval_cases n <;> decide

theorem digitVal_digitChar {n : Nat} (h : n < 10) : digitVal (digitChar n) = n := by
  interval_cases n <;> decide

theorem pad4_all_digits (y : Nat) : ∀ c ∈ pad4 y, isDig c = true := by
  have h1 : y / 1000 % 10 < 10 := Nat.mod_lt _ (by norm_num)
  have h2 : y / 100 % 10 < 10 := Nat.mod_lt _ (by norm_num)
  have h3 : y / 10 % 10 < 10 := Nat.mod_lt _ (by norm_num)
  have h4 : y % 10 < 10 := Nat.mod_lt _ (by norm_num)
  intro c hc
  simp only [pad4, List.mem_cons, List.not_mem_nil, or_false] at hc
  rcases hc with h | h | h | h <;> subst h
  · exact isDig_digitChar h1
  · exact isDig_digitChar h2
  · exact isDig_digitChar h3
  · exact isDig_digitChar h4

theorem pad2_all_digits (m : Nat) : ∀ c ∈ pad2 m, isDig c = true := by
  have h1 : m / 10 % 10 < 10 := Nat.mod_lt _ (by norm_num)
  have h2 : m % 10 < 10 := Nat.mod_lt _ (by norm_num)
  intro c hc
  simp only [pad2, List.mem_cons, List.not_mem_nil, or_false] at hc
  rcases hc with h | h <;> subst h
  · exact isDig_digitChar h1
  · exact isDig_digitChar h2

theorem digitsVal_pad4 {y : Nat} (hy : y < 10000) : digitsVal (pad4 y) = y := by
  have h1 : y / 1000 % 10 < 10 := Nat.mod_lt _ (by norm_num)
  have h2 : y / 100 % 10 < 10 := Nat.mod_lt _ (by norm_num)
  have h3 : y / 10 % 10 < 10 := Nat.mod_lt _ (by norm_num)
  have h4 : y % 10 < 10 := Nat.mod_lt _ (by norm_num)
  simp only [digitsVal, pad4, List.foldl_cons, List.foldl_nil,
    digitVal_digitChar h1, digitVal_digitChar h2, digitVal_digitChar h3,
    digitVal_digitChar h4]
  omega

theorem digitsVal_pad2 {m : Nat} (hm : m < 100) : digitsVal (pad2 m) = m := by
  have h1 : m / 10 % 10 < 10 := Nat.mod_lt _ (by norm_num)
  have h2 : m % 10 < 10 := Nat.mod_lt _ (by norm_num)
  simp only [digitsVal, pad2, List.foldl_cons, List.foldl_nil,
    digitVal_digitChar h1, digitVal_digitChar h2]
  omega

/-- A greedy numeric field consumes exactly a leading digit run when the
run is within the width and either fills the width or is followed by a
non-digit (or the end of input). -/
theorem parseDigitsAux_append (w acc : Nat) (run rest : List Char)
    (hrun : ∀ c ∈ run, isDig c = true) (hlen : run.length ≤ w)
    (hstop : run.length = w ∨ noDigitHead rest = true) :
    parseDigitsAux w acc (run ++ rest) =
      (run.foldl (fun a c => 10 * a + digitVal c) acc, rest) := by
  induction run generalizing w acc with
  | nil =>
    simp only [List.nil_append, List.foldl_nil]
    cases w with
    | zero => rfl
    | succ w2 =>
      rcases hstop with h | h
      · simp at h
      · cases rest with
        | nil => rfl
        | cons c t =>
          have hc : isDig c = false := by
            simp only [noDigitHead, Bool.not_eq_true'] at h
            exact h
          simp [parseDigitsAux, hc]
  | cons c cs ih =>
    cases w with
    | zero => simp at hlen
    | succ w2 =>
      have hc : isDig c = true := hrun c (List.mem_cons_self c cs)
      simp only [List.cons_append, List.foldl_cons]
      rw [show parseDigitsAux (w2 + 1) acc (c :: (cs ++ rest)) =
          parseDigitsAux w2 (10 * acc + digitVal c) (cs ++ rest) from by
        simp [parseDigitsAux, hc]]
      apply ih
      · intro x hx
        exact hrun x (List.mem_cons_of_mem c hx)
      · simpa using hlen
      · rcases hstop with h | h
        · left
          simpa using h
        · right
          exact h

theorem parseField_append (w : Nat) (run rest : List Char) (hne : run ≠ [])
    (hrun : ∀ c ∈ run, isDig c = true) (hlen : run.length ≤ w)
    (hstop : run.length = w ∨ noDigitHead rest = true) :
    parseField w (run ++ rest) = some (digitsVal run, rest) := by
  cases run with
  | nil => exact absurd rfl hne
  | cons c cs =>
    have hc : isDig c = true := hrun c (List.mem_cons_self c cs)
    have hw : 1 ≤ w := le_trans (by simp) hlen
    rw [List.cons_append]
    rw [show parseField w (c :: (cs ++ rest)) =
        some (parseDigitsAux (w - 1) (digitVal c) (cs ++ rest)) from by
      simp [parseField, hc]]
    rw [parseDigitsAux_append (w - 1) (digitVal c) cs rest
      (fun x hx => hrun x (List.mem_cons_of_mem c hx))
      (by simp at hlen; omega)
      (by
        rcases hstop with h | h
        · left
          simp at h
          omega
        · right
          exact h)]
    have hval : cs.foldl (fun a c => 10 * a + digitVal c) (digitVal c) =
        digitsVal (c :: cs) := by
      simp [digitsVal, List.foldl_cons]
    rw [hval]

/-- Inversion of the greedy digit run: whatever `parseDigitsAux` returned
came from a leading digit run within the width. -/
theorem parseDigitsAux_inv (w acc : Nat) (l : List Char) {v : Nat}
    {r : List Char} (h : parseDigitsAux w acc l = (v, r)) :
    ∃ run, l = run ++ r ∧ (∀ c ∈ run, isDig c = true) ∧ run.length ≤ w ∧
      v = run.foldl (fun a c => 10 * a + digitVal c) acc := by
  induction w generalizing acc l with
  | zero =>
    simp only [parseDigitsAux, Prod.mk.injEq] at h
    exact ⟨[], by simp [h.2], by simp, by simp, by simp [h.1]⟩
  | succ w2 ih =>
    cases l with
    | nil =>
      simp only [parseDigitsAux, Prod.mk.injEq] at h
      exact ⟨[], by simp [h.2], by simp, by simp, by simp [h.1]⟩
    | cons c t =>
      by_cases hc : isDig c = true
      · rw [show parseDigitsAux (w2 + 1) acc (c :: t) =
            parseDigitsAux w2 (10 * acc + digitVal c) t from by
          simp [parseDigitsAux, hc]] at h
        obtain ⟨run2, ht, hd, hlen, hv⟩ := ih (10 * acc + digitVal c) t h
        refine ⟨c :: run2, by rw [List.cons_append, ← ht], ?_, by simpa using hlen,
          by rw [List.foldl_cons]; exact hv⟩
        intro x hx
        rcases List.mem_cons.mp hx with h2 | h2
        · rw [h2]; exact hc
        · exact hd x h2
      · rw [show parseDigitsAux (w2 + 1) acc (c :: t) = (acc, c :: t) from by
          simp [parseDigitsAux, hc]] at h
        simp only [Prod.mk.injEq] at h
        exact ⟨[], by simp [h.2], by simp, by simp, by simp [h.1]⟩

theorem parseField_inv (w : Nat) (hw : 1 ≤ w) (l : List Char) {v : Nat}
    {r : List Char} (h : parseField w l = some (v, r)) :
    ∃ run, l = run ++ r ∧ run ≠ [] ∧ (∀ c ∈ run, isDig c = true) ∧
      run.length ≤ w ∧ v = digitsVal run := by
  cases l with
  | nil => simp [parseField] at h
  | cons c t =>
    by_cases hc : isDig c = true
    · rw [show parseField w (c :: t) =
          some (parseDigitsAux (w - 1) (digitVal c) t) from by
        simp [parseField, hc]] at h
      have h2 := Option.some.inj h
      obtain ⟨run2, ht, hd, hlen, hv⟩ := parseDigitsAux_inv (w - 1) (digitVal c) t h2
      refine ⟨c :: run2, by rw [List.cons_append, ← ht], by simp,
        ?_, by simp; omega, ?_⟩
      · intro x hx
        rcases List.mem_cons.mp hx with h3 | h3
        · rw [h3]; exact hc
        · exact hd x h3
      · rw [hv, digitsVal, List.foldl_cons]
        simp
    · rw [show parseField w (c :: t) = none from by simp [parseField, hc]] at h
      exact Option.noConfusion h

theorem parse4_pad4 {y : Nat} (hy : y < 10000) (rest : List Char) :
    parse4 (pad4 y ++ rest) = some (y, rest) := by
  show parseField 4 (pad4 y ++ rest) = some (y, rest)
  rw [parseField_append 4 (pad4 y) rest (by simp [pad4]) (pad4_all_digits y)
    (by simp [pad4]) (Or.inl (by simp [pad4]))]
  rw [digitsVal_pad4 hy]

theorem parse2_pad2 {m : Nat} (hm : m < 100) (rest : List Char) :
    parse2 (pad2 m ++ rest) = some (m, rest) := by
  show parseField 2 (pad2 m ++ rest) = some (m, rest)
  rw [parseField_append 2 (pad2 m) rest (by simp [pad2]) (pad2_all_digits m)
    (by simp [pad2]) (Or.inl (by simp [pad2]))]
  rw [digitsVal_pad2 hm]

theorem expectChar_eq_some {c : Char} {l r : List Char}
    (h : expectChar c l = some r) : l = c :: r := by
  match l with
  | [] => simp [expectChar] at h
  | x :: rest =>
    by_cases hx : x = c
    · rw [expectChar, if_pos hx] at h
      rw [hx, Option.some.inj h]
    · rw [expectChar, if_neg hx] at h
      cases h

theorem validDate_bounds {y m d : Nat} (hv : validDate y m d = true) :
    m < 100 ∧ d < 100 := by
  have := of_decide_eq_true hv
  have hdm : daysInMonth y m ≤ 31 := by
    rw [daysInMonth]
    split
    · split <;> omega
    · split <;> omega
  omega

/-- Any `%Y-%m-%d` rendering of a valid date is accepted by the first
`TRY_STRPTIME` branch and parses to that date. -/
theorem tryStrptimeYmd_rendering {s : String} {dt : SDate}
    (hr : isYmdRendering s.data dt)
    (hv : validDate dt.year dt.month dt.day = true) :
    tryStrptimeYmd s = some dt := by
  obtain ⟨ys, ms, ds, hdata, hysd, hys1, hys4, hmsd, hms1, hms2, hdsd, hds1,
    hds2, hyv, hmv, hdv⟩ := hr
  have hdash : isDig '-' = false := by decide
  have hp4 : parse4 (ys ++ '-' :: (ms ++ '-' :: ds)) =
      some (digitsVal ys, '-' :: (ms ++ '-' :: ds)) := by
    show parseField 4 _ = _
    exact parseField_append 4 ys _ (List.length_pos.mp (by omega)) hysd hys4
      (Or.inr (by simp [noDigitHead, hdash]))
  have hE1 : expectChar '-' ('-' :: (ms ++ '-' :: ds)) =
      some (ms ++ '-' :: ds) := by rw [expectChar, if_pos rfl]
  have hp2 : parse2 (ms ++ '-' :: ds) = some (digitsVal ms, '-' :: ds) := by
    show parseField 2 _ = _
    exact parseField_append 2 ms _ (List.length_pos.mp (by omega)) hmsd hms2
      (Or.inr (by simp [noDigitHead, hdash]))
  have hE2 : expectChar '-' ('-' :: ds) = some ds := by
    rw [expectChar, if_pos rfl]
  have hpd : parse2 ds = some (digitsVal ds, []) := by
    show parseField 2 _ = _
    have := parseField_append 2 ds [] (List.length_pos.mp (by omega)) hdsd hds2
      (Or.inr (by simp [noDigitHead]))
    rwa [List.append_nil] at this
  simp only [tryStrptimeYmd, hdata, hp4, hE1, hp2, hE2, hpd]
  rw [← hyv, ← hmv, ← hdv]
  simp [hv]

/-- Any `%d/%m/%Y` rendering is rejected by the `%Y-%m-%d` branch: the
year field stops at the first slash, where a dash is expected. -/
theorem tryStrptimeYmd_dmyRendering {s : String} {dt : SDate}
    (hr : isDmyRendering s.data dt) : tryStrptimeYmd s = none := by
  obtain ⟨ds, ms, ys, hdata, hdsd, hds1, hds2, hmsd, hms1, hms2, hysd, hys1,
    hys4, hdv, hmv, hyv⟩ := hr
  have hslash : isDig '/' = false := by decide
  have hp4 : parse4 (ds ++ '/' :: (ms ++ '/' :: ys)) =
      some (digitsVal ds, '/' :: (ms ++ '/' :: ys)) := by
    show parseField 4 _ = _
    exact parseField_append 4 ds _ (List.length_pos.mp (by omega)) hdsd
      (le_trans hds2 (by norm_num)) (Or.inr (by simp [noDigitHead, hslash]))
  have hE : expectChar '-' ('/' :: (ms ++ '/' :: ys)) = none := by
    rw [expectChar, if_neg (by decide)]
  simp only [tryStrptimeYmd, hdata, hp4, hE]

/-- Any `%d/%m/%Y` rendering of a valid date is accepted by the second
`TRY_STRPTIME` branch and parses to that date. -/
theorem tryStrptimeDmy_rendering {s : String} {dt : SDate}
    (hr : isDmyRendering s.data dt)
    (hv : validDate dt.year dt.month dt.day = true) :
    tryStrptimeDmy s = some dt := by
  obtain ⟨ds, ms, ys, hdata, hdsd, hds1, hds2, hmsd, hms1, hms2, hysd, hys1,
    hys4, hdv, hmv, hyv⟩ := hr
  have hslash : isDig '/' = false := by decide
  have hpd : parse2 (ds ++ '/' :: (ms ++ '/' :: ys)) =
      some (digitsVal ds, '/' :: (ms ++ '/' :: ys)) := by
    show parseField 2 _ = _
    exact parseField_append 2 ds _ (List.length_pos.mp (by omega)) hdsd hds2
      (Or.inr (by simp [noDigitHead, hslash]))
  have hE1 : expectChar '/' ('/' :: (ms ++ '/' :: ys)) =
      some (ms ++ '/' :: ys) := by rw [expectChar, if_pos rfl]
  have hp2 : parse2 (ms ++ '/' :: ys) = some (digitsVal ms, '/' :: ys) := by
    show parseField 2 _ = _
    exact parseField_append 2 ms _ (List.length_pos.mp (by omega)) hmsd hms2
      (Or.inr (by simp [noDigitHead, hslash]))
  have hE2 : expectChar '/' ('/' :: ys) = some ys := by
    rw [expectChar, if_pos rfl]
  have hp4 : parse4 ys = some (digitsVal ys, []) := by
    show parseField 4 _ = _
    have := parseField_append 4 ys [] (List.length_pos.mp (by omega)) hysd hys4
      (Or.inr (by simp [noDigitHead]))
    rwa [List.append_nil] at this
  simp only [tryStrptimeDmy, hdata, hpd, hE1, hp2, hE2, hp4]
  rw [← hyv, ← hmv, ← hdv]
  simp [hv]

theorem tryStrptimeYmd_iso {y m d : Nat} (hv : validDate y m d = true)
    (hy : y < 10000) : tryStrptimeYmd (isoString y m d) = some ⟨y, m, d⟩ := by
  obtain ⟨hm, hd⟩ := validDate_bounds hv
  apply tryStrptimeYmd_rendering
  · refine ⟨pad4 y, pad2 m, pad2 d, rfl, pad4_all_digits y, by simp [pad4],
      by simp [pad4], pad2_all_digits m, by simp [pad2], by simp [pad2],
      pad2_all_digits d, by simp [pad2], by simp [pad2], ?_, ?_, ?_⟩
    · exact (digitsVal_pad4 hy).symm
    · exact (digitsVal_pad2 hm).symm
    · exact (digitsVal_pad2 hd).symm
  · exact hv

theorem tryStrptimeYmd_dmyString {y m d : Nat} (hv : validDate y m d = true)
    (hy : y < 10000) : tryStrptimeYmd (dmyString d m y) = none := by
  obtain ⟨hm, hd⟩ := validDate_bounds hv
  apply @tryStrptimeYmd_dmyRendering (dmyString d m y) ⟨y, m, d⟩
  refine ⟨pad2 d, pad2 m, pad4 y, rfl, pad2_all_digits d, by simp [pad2],
    by simp [pad2], pad2_all_digits m, by simp [pad2], by simp [pad2],
    pad4_all_digits y, by simp [pad4], by simp [pad4], ?_, ?_, ?_⟩
  · exact (digitsVal_pad2 hd).symm
  · exact (digitsVal_pad2 hm).symm
  · exact (digitsVal_pad4 hy).symm

theorem tryStrptimeDmy_dmy {y m d : Nat} (hv : validDate y m d = true)
    (hy : y < 10000) : tryStrptimeDmy (dmyString d m y) = some ⟨y, m, d⟩ := by
  obtain ⟨hm, hd⟩ := validDate_bounds hv
  apply tryStrptimeDmy_rendering
  · refine ⟨pad2 d, pad2 m, pad4 y, rfl, pad2_all_digits d, by simp [pad2],
      by simp [pad2], pad2_all_digits m, by simp [pad2], by simp [pad2],
      pad4_all_digits y, by simp [pad4], by simp [pad4], ?_, ?_, ?_⟩
    · exact (digitsVal_pad2 hd).symm
    · exact (digitsVal_pad2 hm).symm
    · exact (digitsVal_pad4 hy).symm
  · exact hv

/-- Inversion: a successful `%Y-%m-%d` parse comes from a string the
format accepts, encoding a valid calendar date. -/
theorem tryStrptimeYmd_inv {s : String} {dt : SDate}
    (h : tryStrptimeYmd s = some dt) :
    validDate dt.year dt.month dt.day = true ∧ isYmdRendering s.data dt := by
  simp only [tryStrptimeYmd] at h
  cases h4 : parse4 s.data with
  | none => simp only [h4] at h; exact Option.noConfusion h
  | some p =>
    obtain ⟨y, r1⟩ := p
    simp only [h4] at h
    cases hE1 : expectChar '-' r1 with
    | none => simp only [hE1] at h; exact Option.noConfusion h
    | some r2 =>
      simp only [hE1] at h
      cases h2 : parse2 r2 with
      | none => simp only [h2] at h; exact Option.noConfusion h
      | some q =>
        obtain ⟨m, r3⟩ := q
        simp only [h2] at h
        cases hE2 : expectChar '-' r3 with
        | none => simp only [hE2] at h; exact Option.noConfusion h
        | some r4 =>
          simp only [hE2] at h
          cases h3 : parse2 r4 with
          | none => simp only [h3] at h; exact Option.noConfusion h
          | some q2 =>
            obtain ⟨d, r5⟩ := q2
            simp only [h3] at h
            by_cases hcond : (r5.isEmpty && validDate y m d) = true
            · simp only [if_pos hcond] at h
              rcases Bool.and_eq_true_iff.mp hcond with ⟨hr5, hv⟩
              have hdt : dt = ⟨y, m, d⟩ := (Option.some.inj h).symm
              have hr5nil : r5 = [] := by
                cases r5 with
                | nil => rfl
                | cons x t => simp [List.isEmpty] at hr5
              obtain ⟨ys, hs1, hysne, hysd, hys4, hysv⟩ :=
                parseField_inv 4 (by norm_num) s.data h4
              obtain ⟨ms, hs2, hmsne, hmsd, hms2, hmsv⟩ :=
                parseField_inv 2 (by norm_num) r2 h2
              obtain ⟨ds, hs3, hdsne, hdsd, hds2, hdsv⟩ :=
                parseField_inv 2 (by norm_num) r4 h3
              have hr1 : r1 = '-' :: r2 := expectChar_eq_some hE1
              have hr3 : r3 = '-' :: r4 := expectChar_eq_some hE2
              refine ⟨by rw [hdt]; exact hv, ys, ms, ds, ?_, hysd,
                List.length_pos.mpr hysne, hys4, hmsd,
                List.length_pos.mpr hmsne, hms2, hdsd,
                List.length_pos.mpr hdsne, hds2,
                by rw [hdt]; exact hysv, by rw [hdt]; exact hmsv,
                by rw [hdt]; exact hdsv⟩
              rw [hs1, hr1, hs2, hr3, hs3, hr5nil, List.append_nil]
            · simp only [if_neg hcond] at h
              exact Option.noConfusion h

/-- Inversion: a successful `%d/%m/%Y` parse comes from a string the
format accepts, encoding a valid calendar date. -/
theorem tryStrptimeDmy_inv {s : String} {dt : SDate}
    (h : tryStrptimeDmy s = some dt) :
    validDate dt.year dt.month dt.day = true ∧ isDmyRendering s.data dt := by
  simp only [tryStrptimeDmy] at h
  cases h4 : parse2 s.data with
  | none => simp only [h4] at h; exact Option.noConfusion h
  | some p =>
    obtain ⟨d, r1⟩ := p
    simp only [h4] at h
    cases hE1 : expectChar '/' r1 with
    | none => simp only [hE1] at h; exact Option.noConfusion h
    | some r2 =>
      simp only [hE1] at h
      cases h2 : parse2 r2 with
      | none => simp only [h2] at h; exact Option.noConfusion h
      | some q =>
        obtain ⟨m, r3⟩ := q
        simp only [h2] at h
        cases hE2 : expectChar '/' r3 with
        | none => simp only [hE2] at h; exact Option.noConfusion h
        | some r4 =>
          simp only [hE2] at h
          cases h3 : parse4 r4 with
          | none => simp only [h3] at h; exact Option.noConfusion h
          | some q2 =>
            obtain ⟨y, r5⟩ := q2
            simp only [h3] at h
            by_cases hcond : (r5.isEmpty && validDate y m d) = true
            · simp only [if_pos hcond] at h
              rcases Bool.and_eq_true_iff.mp hcond with ⟨hr5, hv⟩
              have hdt : dt = ⟨y, m, d⟩ := (Option.some.inj h).symm
              have hr5nil : r5 = [] := by
                cases r5 with
                | nil => rfl
                | cons x t => simp [List.isEmpty] at hr5
              obtain ⟨ds, hs1, hdsne, hdsd, hds2, hdsv⟩ :=
                parseField_inv 2 (by norm_num) s.data h4
              obtain ⟨ms, hs2, hmsne, hmsd, hms2, hmsv⟩ :=
                parseField_inv 2 (by norm_num) r2 h2
              obtain ⟨ys, hs3, hysne, hysd, hys4, hysv⟩ :=
                parseField_inv 4 (by norm_num) r4 h3
              have hr1 : r1 = '/' :: r2 := expectChar_eq_some hE1
              have hr3 : r3 = '/' :: r4 := expectChar_eq_some hE2
              refine ⟨by rw [hdt]; exact hv, ds, ms, ys, ?_, hdsd,
                List.length_pos.mpr hdsne, hds2, hmsd,
                List.length_pos.mpr hmsne, hms2, hysd,
                List.length_pos.mpr hysne, hys4,
                by rw [hdt]; exact hdsv, by rw [hdt]; exact hmsv,
                by rw [hdt]; exact hysv⟩
              rw [hs1, hr1, hs2, hr3, hs3, hr5nil, List.append_nil]
            · simp only [if_neg hcond] at h
              exact Option.noConfusion h

/-- **C8.**  The ingestion date-parsing expression is a total function
into `Option`: every string the `%Y-%m-%d` format accepts (one-to-four
digit year, one-or-two digit month and day, dash-separated — the
zero-padded `YYYY-MM-DD` rendering in particular) parses to the
corresponding calendar date, with that format tried first; every string
the `%d/%m/%Y` format accepts parses likewise; and conversely every
successful parse comes from a string one of the two formats accepts and
encodes a valid calendar date — so any other string yields `none` (a
missing value), never an error. -/
theorem C8_date_parsing :
    (∀ y m d : Nat, validDate y m d = true → y < 10000 →
      getDateExpression (isoString y m d) = some ⟨y, m, d⟩ ∧
      getDateExpression (dmyString d m y) = some ⟨y, m, d⟩) ∧
    (∀ (s : String) (dt : SDate), validDate dt.year dt.month dt.day = true →
      (isYmdRendering s.data dt → getDateExpression s = some dt) ∧
      (isDmyRendering s.data dt → getDateExpression s = some dt)) ∧
    (∀ (s : String) (dt : SDate), getDateExpression s = some dt →
      validDate dt.year dt.month dt.day = true ∧
        (isYmdRendering s.data dt ∨ isDmyRendering s.data dt)) := by
  refine ⟨?_, ?_, ?_⟩
  · intro y m d hv hy
    constructor
    · rw [getDateExpression, tryStrptimeYmd_iso hv hy]
    · rw [getDateExpression, tryStrptimeYmd_dmyString hv hy,
        tryStrptimeDmy_dmy hv hy]
  · intro s dt hv
    constructor
    · intro hr
      rw [getDateExpression, tryStrptimeYmd_rendering hr hv]
    · intro hr
      rw [getDateExpression, tryStrptimeYmd_dmyRendering hr,
        tryStrptimeDmy_rendering hr hv]
  · intro s dt h
    rw [getDateExpression] at h
    cases hy : tryStrptimeYmd s with
    | some dt2 =>
      rw [hy] at h
      obtain ⟨hv, hr⟩ := tryStrptimeYmd_inv (hy.trans (congrArg some
        (Option.some.inj h)))
      exact ⟨hv, Or.inl hr⟩
    | none =>
      rw [hy] at h
      obtain ⟨hv, hr⟩ := tryStrptimeDmy_inv h
      exact ⟨hv, Or.inr hr⟩

/-- **C8, witness**: the leap date 2016-02-29 parses from both canonical
renderings, and the non-zero-padded string `2016-1-1` — accepted by the
engine's `%Y-%m-%d` — parses too and is certified by the inversion to lie
in the `%Y-%m-%d` format. -/
theorem C8_witness :
    validDate 2016 2 29 = true ∧ (2016 : Nat) < 10000 ∧
    getDateExpression (isoString 2016 2 29) = some ⟨2016, 2, 29⟩ ∧
    getDateExpression (dmyString 29 2 2016) = some ⟨2016, 2, 29⟩ ∧
    getDateExpression ("2016-1-1") = some ⟨2016, 1, 1⟩ ∧
    (validDate (2016 : Nat) 1 1 = true ∧
      (isYmdRendering ("2016-1-1" : String).data ⟨2016, 1, 1⟩ ∨
        isDmyRendering ("2016-1-1" : String).data ⟨2016, 1, 1⟩)) :=
  ⟨by decide, by decide,
    (C8_date_parsing.1 2016 2 29 (by decide) (by decide)).1,
    (C8_date_parsing.1 2016 2 29 (by decide) (by decide)).2,
    by decide,
    C8_date_parsing.2.2 ("2016-1-1") ⟨2016, 1, 1⟩ (by decide)⟩

/-- Concrete sanity checks of the date parser on literal strings,
including the non-zero-padded forms the engine accepts. -/
theorem getDateExpression_examples :
    getDateExpression ("2016-02-29") = some ⟨2016, 2, 29⟩ ∧
    getDateExpression ("29/02/2016") = some ⟨2016, 2, 29⟩ ∧
    getDateExpression ("2016-1-1") = some ⟨2016, 1, 1⟩ ∧
    getDateExpression ("1/2/2016") = some ⟨2016, 2, 1⟩ ∧
    getDateExpression ("16-1-1") = some ⟨16, 1, 1⟩ ∧
    getDateExpression ("2015-02-29") = none ∧
    getDateExpression ("31/04/2017") = none ∧
    getDateExpression ("hello") = none ∧
    getDateExpression ("2016/02/29") = none ∧
    getDateExpression ("20166-1-1") = none := by
  decide

/-! ## C7: Q3 keeps exactly the rank-at-most-3 aggregates, ties included -/

/-- **C7.**  The Q3 result contains exactly the `(city, family)` aggregates
whose rank by total quantity descending within their city is at most 3,
where tied totals receive equal rank; tied rows are never dropped (so a
city may contribute more than 3 rows). -/
theorem C7_top3_per_city (train : List TrainRow) (stores : List StoreRow)
    (items : List ItemRow) :
    (∀ g ∈ q3Groups train stores items,
        rankInCity (q3Groups train stores items) g ≤ 3 →
        q3Out (q3Groups train stores items) g ∈ q3Rows train stores items) ∧
    (∀ r ∈ q3Rows train stores items,
        ∃ g ∈ q3Groups train stores items,
          rankInCity (q3Groups train stores items) g ≤ 3 ∧
          r = q3Out (q3Groups train stores items) g) ∧
    (∀ g1 ∈ q3Groups train stores items, ∀ g2 ∈ q3Groups train stores items,
        g1.city = g2.city → g1.total = g2.total →
        rankInCity (q3Groups train stores items) g1 =
          rankInCity (q3Groups train stores items) g2) := by
  refine ⟨?_, ?_, ?_⟩
  · intro g hg hrank
    simp only [q3Rows, List.mem_insertionSort, List.mem_map]
    exact ⟨g, List.mem_filter.mpr ⟨hg, decide_eq_true hrank⟩, rfl⟩
  · intro r hr
    simp only [q3Rows, List.mem_insertionSort, List.mem_map] at hr
    obtain ⟨g, hg, hgr⟩ := hr
    rcases List.mem_filter.mp hg with ⟨hgg, hrank⟩
    exact ⟨g, hgg, of_decide_eq_true hrank, hgr.symm⟩
  · intro g1 h1 g2 h2 hcity htot
    unfold rankInCity
    congr 1
    apply congrArg
    apply List.filter_congr
    intro x _
    rw [hcity, htot]

/-- **C7, witness**: one city with four families all tied at total 50 —
every aggregate has rank 1, all four rows are kept (more than 3), and
tied aggregates share their rank. -/
theorem C7_witness :
    ((⟨"X", "F1", 50⟩ : Q3Group) ∈ q3Groups
        [⟨0, ⟨2016, 1, 1⟩, 1, 1, 50, false⟩, ⟨1, ⟨2016, 1, 1⟩, 1, 2, 50, false⟩,
         ⟨2, ⟨2016, 1, 1⟩, 1, 3, 50, false⟩, ⟨3, ⟨2016, 1, 1⟩, 1, 4, 50, false⟩]
        [⟨1, "X", "S", "D", 1⟩]
        [⟨1, "F1", 0, 0⟩, ⟨2, "F2", 0, 0⟩, ⟨3, "F3", 0, 0⟩, ⟨4, "F4", 0, 0⟩]) ∧
    (rankInCity (q3Groups
        [⟨0, ⟨2016, 1, 1⟩, 1, 1, 50, false⟩, ⟨1, ⟨2016, 1, 1⟩, 1, 2, 50, false⟩,
         ⟨2, ⟨2016, 1, 1⟩, 1, 3, 50, false⟩, ⟨3, ⟨2016, 1, 1⟩, 1, 4, 50, false⟩]
        [⟨1, "X", "S", "D", 1⟩]
        [⟨1, "F1", 0, 0⟩, ⟨2, "F2", 0, 0⟩, ⟨3, "F3", 0, 0⟩, ⟨4, "F4", 0, 0⟩])
      (⟨"X", "F1", 50⟩ : Q3Group) ≤ 3) ∧
    (q3Out (q3Groups
        [⟨0, ⟨2016, 1, 1⟩, 1, 1, 50, false⟩, ⟨1, ⟨2016, 1, 1⟩, 1, 2, 50, false⟩,
         ⟨2, ⟨2016, 1, 1⟩, 1, 3, 50, false⟩, ⟨3, ⟨2016, 1, 1⟩, 1, 4, 50, false⟩]
        [⟨1, "X", "S", "D", 1⟩]
        [⟨1, "F1", 0, 0⟩, ⟨2, "F2", 0, 0⟩, ⟨3, "F3", 0, 0⟩, ⟨4, "F4", 0, 0⟩])
      (⟨"X", "F1", 50⟩ : Q3Group) ∈ q3Rows
        [⟨0, ⟨2016, 1, 1⟩, 1, 1, 50, false⟩, ⟨1, ⟨2016, 1, 1⟩, 1, 2, 50, false⟩,
         ⟨2, ⟨2016, 1, 1⟩, 1, 3, 50, false⟩, ⟨3, ⟨2016, 1, 1⟩, 1, 4, 50, false⟩]
        [⟨1, "X", "S", "D", 1⟩]
        [⟨1, "F1", 0, 0⟩, ⟨2, "F2", 0, 0⟩, ⟨3, "F3", 0, 0⟩, ⟨4, "F4", 0, 0⟩]) ∧
    ((q3Rows
        [⟨0, ⟨2016, 1, 1⟩, 1, 1, 50, false⟩, ⟨1, ⟨2016, 1, 1⟩, 1, 2, 50, false⟩,
         ⟨2, ⟨2016, 1, 1⟩, 1, 3, 50, false⟩, ⟨3, ⟨2016, 1, 1⟩, 1, 4, 50, false⟩]
        [⟨1, "X", "S", "D", 1⟩]
        [⟨1, "F1", 0, 0⟩, ⟨2, "F2", 0, 0⟩, ⟨3, "F3", 0, 0⟩, ⟨4, "F4", 0, 0⟩]).length
      = 4) :=
  ⟨by decide, by decide,
    (C7_top3_per_city
      [⟨0, ⟨2016, 1, 1⟩, 1, 1, 50, false⟩, ⟨1, ⟨2016, 1, 1⟩, 1, 2, 50, false⟩,
       ⟨2, ⟨2016, 1, 1⟩, 1, 3, 50, false⟩, ⟨3, ⟨2016, 1, 1⟩, 1, 4, 50, false⟩]
      [⟨1, "X", "S", "D", 1⟩]
      [⟨1, "F1", 0, 0⟩, ⟨2, "F2", 0, 0⟩, ⟨3, "F3", 0, 0⟩, ⟨4, "F4", 0, 0⟩]).1
      (⟨"X", "F1", 50⟩ : Q3Group) (by decide) (by decide),
    by decide⟩

/-! ## C3: Q4 basket size and dense ranking -/

/-- **C3, counterexample.**  The claim asserts
`avg_basket_size = total_items_sold / total_transactions` *exactly*, but
the code rounds to two decimals: a city with 10 items over 3 transactions
gets `avg_basket_size = 3.33 ≠ 10/3`. -/
theorem C3_counterexample :
    ¬ ∀ r ∈ q4Rows [⟨0, ⟨2016, 1, 1⟩, 1, 1, 10, false⟩]
        [⟨⟨2016, 1, 1⟩, 1, 3⟩] [⟨1, "A", "S", "D", 1⟩],
      r.avg_basket_size = r.total_items_sold / (r.total_transactions : ℚ) := by
  decide

theorem denseRankDesc_eq_card (vals : List ℚ) (v : ℚ) :
    denseRankDesc vals v = 1 + (vals.toFinset.filter (fun w => v < w)).card := by
  unfold denseRankDesc
  congr 1
  rw [← List.card_toFinset, List.toFinset_filter]
  apply congrArg
  apply Finset.filter_congr
  intro x _
  simp

theorem denseRankDesc_lt_of_lt (vals : List ℚ) {v w : ℚ} (hw : w ∈ vals)
    (hvw : v < w) : denseRankDesc vals w < denseRankDesc vals v := by
  rw [denseRankDesc_eq_card, denseRankDesc_eq_card]
  have hsub : vals.toFinset.filter (fun x => w < x) ⊆
      vals.toFinset.filter (fun x => v < x) := by
    intro x hx
    rcases Finset.mem_filter.mp hx with ⟨h1, h2⟩
    exact Finset.mem_filter.mpr ⟨h1, lt_trans hvw h2⟩
  have hss : vals.toFinset.filter (fun x => w < x) ⊂
      vals.toFinset.filter (fun x => v < x) :=
    (Finset.ssubset_iff_of_subset hsub).mpr
      ⟨w, Finset.mem_filter.mpr ⟨List.mem_toFinset.mpr hw, hvw⟩,
        fun hmem => absurd (Finset.mem_filter.mp hmem).2 (lt_irrefl w)⟩
  have := Finset.card_lt_card hss
  omega

theorem denseRankDesc_pred (vals : List ℚ) (v : ℚ)
    (h : 1 < denseRankDesc vals v) :
    ∃ w ∈ vals, v < w ∧
      denseRankDesc vals w = denseRankDesc vals v - 1 := by
  have hcard : 0 < (vals.toFinset.filter (fun x => v < x)).card := by
    rw [denseRankDesc_eq_card] at h
    omega
  have hne : (vals.toFinset.filter (fun x => v < x)).Nonempty :=
    Finset.card_pos.mp hcard
  have hwT : (vals.toFinset.filter (fun x => v < x)).min' hne ∈
      vals.toFinset.filter (fun x => v < x) :=
    Finset.min'_mem _ hne
  rcases Finset.mem_filter.mp hwT with ⟨hwF, hvw⟩
  refine ⟨(vals.toFinset.filter (fun x => v < x)).min' hne,
    List.mem_toFinset.mp hwF, hvw, ?_⟩
  rw [denseRankDesc_eq_card, denseRankDesc_eq_card]
  have heq : vals.toFinset.filter
      (fun x => (vals.toFinset.filter (fun y => v < y)).min' hne < x) =
      (vals.toFinset.filter (fun y => v < y)).erase
        ((vals.toFinset.filter (fun y => v < y)).min' hne) := by
    ext x
    constructor
    · intro hx
      rcases Finset.mem_filter.mp hx with ⟨h1, h2⟩
      exact Finset.mem_erase.mpr
        ⟨h2.ne', Finset.mem_filter.mpr ⟨h1, lt_trans hvw h2⟩⟩
    · intro hx
      rcases Finset.mem_erase.mp hx with ⟨hne2, hxT⟩
      rcases Finset.mem_filter.mp hxT with ⟨h1, _⟩
      exact Finset.mem_filter.mpr
        ⟨h1, lt_of_le_of_ne (Finset.min'_le _ x hxT) (Ne.symm hne2)⟩
  rw [heq, Finset.card_erase_of_mem hwT]
  rw [denseRankDesc_eq_card] at h
  omega

theorem mem_q4Rows {train : List TrainRow} {transactions : List TransactionRow}
    {stores : List StoreRow} {r : Q4Row} :
    r ∈ q4Rows train transactions stores ↔
      ∃ c ∈ cityStats train transactions stores,
        r = ⟨c.city, c.total_items_sold, c.total_transactions,
          roundTo2 (basketSize c.total_items_sold c.total_transactions),
          denseRankDesc ((cityStats train transactions stores).map
            (fun x => basketSize x.total_items_sold x.total_transactions))
            (basketSize c.total_items_sold c.total_transactions)⟩ := by
  simp only [q4Rows, List.mem_insertionSort, List.mem_map]
  constructor
  · rintro ⟨c, hc, hcr⟩
    exact ⟨c, hc, hcr.symm⟩
  · rintro ⟨c, hc, hcr⟩
    exact ⟨c, hc, hcr.symm⟩

/-- **C3, amended.**  In the Q4 result, `avg_basket_size` equals
`total_items_sold / total_transactions` *rounded to two decimals*, and
`city_rank` is a dense ranking by the unrounded basket size descending:
tied cities share a rank, larger baskets rank strictly lower (better), and
each rank greater than 1 is preceded by an occupied rank exactly one
smaller — no gap after a tie. -/
theorem C3_amended (train : List TrainRow) (transactions : List TransactionRow)
    (stores : List StoreRow) (r : Q4Row)
    (hr : r ∈ q4Rows train transactions stores) :
    r.avg_basket_size =
      roundTo2 (basketSize r.total_items_sold r.total_transactions) ∧
    1 ≤ r.city_rank ∧
    (∀ s ∈ q4Rows train transactions stores,
      basketSize s.total_items_sold s.total_transactions =
        basketSize r.total_items_sold r.total_transactions →
      s.city_rank = r.city_rank) ∧
    (∀ s ∈ q4Rows train transactions stores,
      basketSize r.total_items_sold r.total_transactions <
        basketSize s.total_items_sold s.total_transactions →
      s.city_rank < r.city_rank) ∧
    (1 < r.city_rank → ∃ s ∈ q4Rows train transactions stores,
      s.city_rank = r.city_rank - 1 ∧
      basketSize r.total_items_sold r.total_transactions <
        basketSize s.total_items_sold s.total_transactions) := by
  obtain ⟨c, hc, hrc⟩ := mem_q4Rows.mp hr
  subst hrc
  refine ⟨rfl, ?_, ?_, ?_, ?_⟩
  · show 1 ≤ denseRankDesc _ _
    unfold denseRankDesc
    omega
  · intro s hs heq
    obtain ⟨c2, hc2, hrc2⟩ := mem_q4Rows.mp hs
    subst hrc2
    replace heq :
        basketSize c2.total_items_sold c2.total_transactions =
          basketSize c.total_items_sold c.total_transactions := heq
    show denseRankDesc _ _ = denseRankDesc _ _
    rw [heq]
  · intro s hs hlt
    obtain ⟨c2, hc2, hrc2⟩ := mem_q4Rows.mp hs
    subst hrc2
    replace hlt :
        basketSize c.total_items_sold c.total_transactions <
          basketSize c2.total_items_sold c2.total_transactions := hlt
    show denseRankDesc _ _ < denseRankDesc _ _
    exact denseRankDesc_lt_of_lt _
      (List.mem_map_of_mem
        (fun x => basketSize x.total_items_sold x.total_transactions) hc2) hlt
  · intro hrank
    replace hrank : 1 < denseRankDesc
        ((cityStats train transactions stores).map
          (fun x => basketSize x.total_items_sold x.total_transactions))
        (basketSize c.total_items_sold c.total_transactions) := hrank
    obtain ⟨w, hwmem, hvw, hwrank⟩ := denseRankDesc_pred _ _ hrank
    obtain ⟨c2, hc2, hc2w⟩ := List.mem_map.mp hwmem
    refine ⟨⟨c2.city, c2.total_items_sold, c2.total_transactions,
      roundTo2 (basketSize c2.total_items_sold c2.total_transactions),
      denseRankDesc ((cityStats train transactions stores).map
        (fun x => basketSize x.total_items_sold x.total_transactions))
        (basketSize c2.total_items_sold c2.total_transactions)⟩,
      mem_q4Rows.mpr ⟨c2, hc2, rfl⟩, ?_, ?_⟩
    · show denseRankDesc _ _ = denseRankDesc _ _ - 1
      rw [hc2w, hwrank]
    · show basketSize c.total_items_sold c.total_transactions <
        basketSize c2.total_items_sold c2.total_transactions
      rw [hc2w]
      exact hvw

/-- **C3, witness**: cities A and B tie at basket size 2 (both rank 1) and
city C has basket size 1; the rank-2 row for C satisfies every conjunct —
in particular rank 2 follows the shared rank 1 with no gap. -/
theorem C3_witness :
    ((⟨"C", 10, 10, 1, 2⟩ : Q4Row) ∈ q4Rows
        [⟨0, ⟨2016, 1, 1⟩, 1, 1, 20, false⟩, ⟨1, ⟨2016, 1, 1⟩, 2, 1, 20, false⟩,
         ⟨2, ⟨2016, 1, 1⟩, 3, 1, 10, false⟩]
        [⟨⟨2016, 1, 1⟩, 1, 10⟩, ⟨⟨2016, 1, 1⟩, 2, 10⟩, ⟨⟨2016, 1, 1⟩, 3, 10⟩]
        [⟨1, "A", "S", "D", 1⟩, ⟨2, "B", "S", "D", 1⟩, ⟨3, "C", "S", "D", 1⟩]) ∧
    ((⟨"C", 10, 10, 1, 2⟩ : Q4Row).avg_basket_size =
      roundTo2 (basketSize (⟨"C", 10, 10, 1, 2⟩ : Q4Row).total_items_sold
        (⟨"C", 10, 10, 1, 2⟩ : Q4Row).total_transactions) ∧
    1 ≤ (⟨"C", 10, 10, 1, 2⟩ : Q4Row).city_rank ∧
    (∀ s ∈ q4Rows
        [⟨0, ⟨2016, 1, 1⟩, 1, 1, 20, false⟩, ⟨1, ⟨2016, 1, 1⟩, 2, 1, 20, false⟩,
         ⟨2, ⟨2016, 1, 1⟩, 3, 1, 10, false⟩]
        [⟨⟨2016, 1, 1⟩, 1, 10⟩, ⟨⟨2016, 1, 1⟩, 2, 10⟩, ⟨⟨2016, 1, 1⟩, 3, 10⟩]
        [⟨1, "A", "S", "D", 1⟩, ⟨2, "B", "S", "D", 1⟩, ⟨3, "C", "S", "D", 1⟩],
      basketSize s.total_items_sold s.total_transactions =
        basketSize (⟨"C", 10, 10, 1, 2⟩ : Q4Row).total_items_sold
          (⟨"C", 10, 10, 1, 2⟩ : Q4Row).total_transactions →
      s.city_rank = (⟨"C", 10, 10, 1, 2⟩ : Q4Row).city_rank) ∧
    (∀ s ∈ q4Rows
        [⟨0, ⟨2016, 1, 1⟩, 1, 1, 20, false⟩, ⟨1, ⟨2016, 1, 1⟩, 2, 1, 20, false⟩,
         ⟨2, ⟨2016, 1, 1⟩, 3, 1, 10, false⟩]
        [⟨⟨2016, 1, 1⟩, 1, 10⟩, ⟨⟨2016, 1, 1⟩, 2, 10⟩, ⟨⟨2016, 1, 1⟩, 3, 10⟩]
        [⟨1, "A", "S", "D", 1⟩, ⟨2, "B", "S", "D", 1⟩, ⟨3, "C", "S", "D", 1⟩],
      basketSize (⟨"C", 10, 10, 1, 2⟩ : Q4Row).total_items_sold
          (⟨"C", 10, 10, 1, 2⟩ : Q4Row).total_transactions <
        basketSize s.total_items_sold s.total_transactions →
      s.city_rank < (⟨"C", 10, 10, 1, 2⟩ : Q4Row).city_rank) ∧
    (1 < (⟨"C", 10, 10, 1, 2⟩ : Q4Row).city_rank → ∃ s ∈ q4Rows
        [⟨0, ⟨2016, 1, 1⟩, 1, 1, 20, false⟩, ⟨1, ⟨2016, 1, 1⟩, 2, 1, 20, false⟩,
         ⟨2, ⟨2016, 1, 1⟩, 3, 1, 10, false⟩]
        [⟨⟨2016, 1, 1⟩, 1, 10⟩, ⟨⟨2016, 1, 1⟩, 2, 10⟩, ⟨⟨2016, 1, 1⟩, 3, 10⟩]
        [⟨1, "A", "S", "D", 1⟩, ⟨2, "B", "S", "D", 1⟩, ⟨3, "C", "S", "D", 1⟩],
      s.city_rank = (⟨"C", 10, 10, 1, 2⟩ : Q4Row).city_rank - 1 ∧
      basketSize (⟨"C", 10, 10, 1, 2⟩ : Q4Row).total_items_sold
          (⟨"C", 10, 10, 1, 2⟩ : Q4Row).total_transactions <
        basketSize s.total_items_sold s.total_transactions)) :=
  ⟨by decide, C3_amended _ _ _ _ (by decide)⟩

/-! ## C4: Q2 year-over-year growth and the LAG lookback -/

/-- **C4, counterexample.**  The claim says a store-year with no
prior-calendar-year record produces no output row.  But `LAG` looks back
one *available* row: a store with perishable sales only in 2014 (100) and
2016 (150) still produces a 2016 output row, with the 2014 total as its
"previous" value, although the store has no 2015 record. -/
theorem C4_counterexample :
    ∃ g ∈ q2Selected
        [⟨0, ⟨2014, 3, 1⟩, 1, 1, 100, false⟩, ⟨1, ⟨2016, 3, 1⟩, 1, 1, 150, false⟩]
        [⟨1, "PROD", 0, 1⟩] [⟨1, "A", "S", "D", 1⟩],
      annualLookup (annualPerishable
        [⟨0, ⟨2014, 3, 1⟩, 1, 1, 100, false⟩, ⟨1, ⟨2016, 3, 1⟩, 1, 1, 150, false⟩]
        [⟨1, "PROD", 0, 1⟩] [⟨1, "A", "S", "D", 1⟩]) g.store_nbr
        (g.sales_year - 1) = none ∧
      g.prev_year_sales = some 100 := by
  decide

theorem ne_of_lt_indexOf {α : Type} [DecidableEq α] {l : List α} {x : α}
    {j : Nat} (hj : j < l.indexOf x) (hjl : j < l.length) : l[j] ≠ x := by
  intro heq
  have := @List.not_of_lt_findIdx _ (fun y => y == x) l j hj
  simp [heq] at this

/-- The content of `LAG(... ) OVER (PARTITION BY store_nbr ORDER BY
sales_year)` when each store has at most one row per year: a non-NULL
previous value is the total of the most recent *earlier* year present in
the same store's sequence of years. -/
theorem lagPrevSales_spec (annual : List AnnualRow) (a : AnnualRow)
    (ha : a ∈ annual)
    (hdist : ∀ g1 ∈ annual, ∀ g2 ∈ annual, g1.store_nbr = g2.store_nbr →
      g1.sales_year = g2.sales_year → g1 = g2)
    {p : ℚ} (hp : lagPrevSales annual a = some p) :
    ∃ b ∈ annual, b.store_nbr = a.store_nbr ∧ b.sales_year < a.sales_year ∧
      p = b.total_perishable_sales ∧
      ∀ g ∈ annual, g.store_nbr = a.store_nbr → g.sales_year < a.sales_year →
        g.sales_year ≤ b.sales_year := by
  have ha_part : a ∈ List.insertionSort yearAsc
      (annual.filter (fun b => b.store_nbr == a.store_nbr)) := by
    rw [List.mem_insertionSort, List.mem_filter]
    exact ⟨ha, by simp⟩
  have hsort : List.Pairwise yearAsc (List.insertionSort yearAsc
      (annual.filter (fun b => b.store_nbr == a.store_nbr))) :=
    List.sorted_insertionSort yearAsc _
  have hidx : (List.insertionSort yearAsc
      (annual.filter (fun b => b.store_nbr == a.store_nbr))).indexOf a <
      (List.insertionSort yearAsc
        (annual.filter (fun b => b.store_nbr == a.store_nbr))).length :=
    List.indexOf_lt_length.mpr ha_part
  simp only [lagPrevSales] at hp
  cases hi : (List.insertionSort yearAsc
      (annual.filter (fun b => b.store_nbr == a.store_nbr))).indexOf a with
  | zero => simp only [hi] at hp; exact Option.noConfusion hp
  | succ j =>
    simp only [hi] at hp
    rw [hi] at hidx
    have hj : j < (List.insertionSort yearAsc
        (annual.filter (fun b => b.store_nbr == a.store_nbr))).length := by
      omega
    rw [List.get?_eq_getElem?, List.getElem?_eq_getElem hj] at hp
    simp only [Option.map_some'] at hp
    have hpval := Option.some.inj hp
    have hb_part : (List.insertionSort yearAsc
        (annual.filter (fun b => b.store_nbr == a.store_nbr)))[j] ∈
        List.insertionSort yearAsc
          (annual.filter (fun b => b.store_nbr == a.store_nbr)) :=
      List.getElem_mem hj
    have hb_filter := (List.mem_insertionSort yearAsc).mp hb_part
    rcases List.mem_filter.mp hb_filter with ⟨hb_ann, hb_store⟩
    have hb_store' : (List.insertionSort yearAsc
        (annual.filter (fun b => b.store_nbr == a.store_nbr)))[j].store_nbr =
        a.store_nbr := by
      exact of_decide_eq_true hb_store
    have hja : (List.insertionSort yearAsc
        (annual.filter (fun b => b.store_nbr == a.store_nbr)))[j] ≠ a := by
      apply ne_of_lt_indexOf
      omega
    have haj := @List.getElem_indexOf AnnualRow _ a
      (List.insertionSort yearAsc
        (annual.filter (fun b => b.store_nbr == a.store_nbr)))
      (by rw [hi]; omega)
    simp only [hi] at haj
    have hyle : (List.insertionSort yearAsc
        (annual.filter (fun b => b.store_nbr == a.store_nbr)))[j].sales_year ≤
        a.sales_year := by
      have := (List.pairwise_iff_getElem.mp hsort) j (j + 1) hj (by omega)
        (by omega)
      rw [haj] at this
      exact this
    have hylt : (List.insertionSort yearAsc
        (annual.filter (fun b => b.store_nbr == a.store_nbr)))[j].sales_year <
        a.sales_year := by
      rcases Nat.lt_or_ge ((List.insertionSort yearAsc
          (annual.filter (fun b => b.store_nbr == a.store_nbr)))[j].sales_year)
          a.sales_year with h | h
      · exact h
      · exfalso
        have heq : (List.insertionSort yearAsc
            (annual.filter (fun b => b.store_nbr == a.store_nbr)))[j].sales_year
            = a.sales_year := by omega
        exact hja (hdist _ hb_ann a ha hb_store' heq)
    refine ⟨(List.insertionSort yearAsc
        (annual.filter (fun b => b.store_nbr == a.store_nbr)))[j],
      hb_ann, hb_store', hylt, hpval.symm, ?_⟩
    intro g hg hgs hgy
    have hg_part : g ∈ List.insertionSort yearAsc
        (annual.filter (fun b => b.store_nbr == a.store_nbr)) := by
      rw [List.mem_insertionSort, List.mem_filter]
      exact ⟨hg, decide_eq_true hgs⟩
    obtain ⟨k, hk, hkg⟩ := List.mem_iff_getElem.mp hg_part
    rcases Nat.lt_or_ge k (j + 1) with hkj | hkj
    · rcases Nat.lt_or_ge k j with hkj2 | hkj2
      · have := (List.pairwise_iff_getElem.mp hsort) k j hk hj hkj2
        rw [hkg] at this
        exact this
      · have hkeq : k = j := by omega
        subst hkeq
        rw [← hkg]
    · rcases Nat.lt_or_ge (j + 1) k with hkj3 | hkj3
      · exfalso
        have := (List.pairwise_iff_getElem.mp hsort) (j + 1) k (by omega) hk
          hkj3
        rw [haj, hkg] at this
        have h2 : a.sales_year ≤ g.sales_year := this
        omega
      · exfalso
        have hkeq : k = j + 1 := by omega
        subst hkeq
        rw [haj] at hkg
        rw [← hkg] at hgy
        omega

/-- Unfolding membership in the Q2 selection: every selected row is a 2016
row of `growth_calculation` with a non-NULL `LAG` value. -/
theorem mem_q2Selected {train : List TrainRow} {items : List ItemRow}
    {stores : List StoreRow} {g : GrowthRow}
    (hg : g ∈ q2Selected train items stores) :
    g.sales_year = 2016 ∧ g.prev_year_sales.isSome = true ∧
    ∃ a ∈ annualPerishable train items stores,
      g = ⟨a.store_nbr, a.city, a.sales_year, a.total_perishable_sales,
        lagPrevSales (annualPerishable train items stores) a⟩ := by
  have h1 := List.mem_of_mem_take hg
  rw [List.mem_insertionSort, List.mem_filter] at h1
  rcases h1 with ⟨h2, h3⟩
  rcases Bool.and_eq_true_iff.mp h3 with ⟨h4, h5⟩
  refine ⟨by simpa using h4, h5, ?_⟩
  simp only [growthCalc, List.mem_map] at h2
  obtain ⟨a, ha, hag⟩ := h2
  exact ⟨a, ha, hag.symm⟩

/-- **C4, amended.**  Whenever the per-store annual aggregate has at most
one row per `(store, year)` (guaranteed when store numbers are unique in
the store dimension), every row of `q2_perishable_growth` is a 2016
store-year whose "previous" value is the total of the *most recent earlier
year present* for that store (not necessarily the prior calendar year);
its `growth_pct` is `(current − previous) / previous × 100` rounded to two
decimals; store-years with no earlier record are dropped; and the output
is ordered by current-year volume descending and truncated to at most 20
rows. -/
theorem C4_amended (train : List TrainRow) (items : List ItemRow)
    (stores : List StoreRow)
    (hdist : ∀ g1 ∈ annualPerishable train items stores,
      ∀ g2 ∈ annualPerishable train items stores,
      g1.store_nbr = g2.store_nbr → g1.sales_year = g2.sales_year → g1 = g2) :
    (q2Selected train items stores).length ≤ 20 ∧
    List.Chain' growthDesc (q2Selected train items stores) ∧
    q2Rows train items stores = (q2Selected train items stores).map q2Project ∧
    ∀ g ∈ q2Selected train items stores,
      g.sales_year = 2016 ∧
      ∃ b ∈ annualPerishable train items stores,
        b.store_nbr = g.store_nbr ∧ b.sales_year < g.sales_year ∧
        g.prev_year_sales = some b.total_perishable_sales ∧
        (∀ g2 ∈ annualPerishable train items stores,
          g2.store_nbr = g.store_nbr → g2.sales_year < g.sales_year →
          g2.sales_year ≤ b.sales_year) ∧
        (q2Project g).growth_pct = some (roundTo2
          ((g.total_perishable_sales - b.total_perishable_sales) /
            b.total_perishable_sales * 100)) := by
  refine ⟨?_, ?_, rfl, ?_⟩
  · show (List.take 20 _).length ≤ 20
    rw [List.length_take]
    exact Nat.min_le_left 20 _
  · have hsorted : List.Pairwise growthDesc
        (List.insertionSort growthDesc ((growthCalc train items stores).filter
          (fun g => g.sales_year == 2016 && g.prev_year_sales.isSome))) :=
      List.sorted_insertionSort growthDesc _
    exact (List.Pairwise.sublist (List.take_sublist 20 _) hsorted).chain'
  · intro g hg
    obtain ⟨hyear, hsome, a, ha, hga⟩ := mem_q2Selected hg
    refine ⟨hyear, ?_⟩
    obtain ⟨p, hp⟩ := Option.isSome_iff_exists.mp hsome
    have hplag : lagPrevSales (annualPerishable train items stores) a = some p := by
      rw [hga] at hp
      exact hp
    obtain ⟨b, hb, hbs, hby, hbp, hbmax⟩ :=
      lagPrevSales_spec (annualPerishable train items stores) a ha hdist hplag
    have hgstore : g.store_nbr = a.store_nbr := by rw [hga]
    have hgyear : g.sales_year = a.sales_year := by rw [hga]
    have hgprev : g.prev_year_sales =
        lagPrevSales (annualPerishable train items stores) a := by rw [hga]
    refine ⟨b, hb, by rw [hgstore]; exact hbs, by rw [hgyear]; exact hby,
      by rw [hgprev, hplag, hbp], ?_, ?_⟩
    · intro g2 hg2 hg2s hg2y
      apply hbmax g2 hg2
      · rw [← hgstore]
        exact hg2s
      · rw [← hgyear]
        exact hg2y
    · show g.prev_year_sales.map _ = _
      rw [hgprev, hplag, hbp]
      rfl

/-- **C4, witness**: a store with consecutive years 2015 (100) and 2016
(150); the single output row has previous = 100, the most recent earlier
year, and growth 50%. -/
theorem C4_witness :
    (∀ g1 ∈ annualPerishable
        [⟨0, ⟨2015, 3, 1⟩, 1, 1, 100, false⟩, ⟨1, ⟨2016, 3, 1⟩, 1, 1, 150, false⟩]
        [⟨1, "PROD", 0, 1⟩] [⟨1, "A", "S", "D", 1⟩],
      ∀ g2 ∈ annualPerishable
        [⟨0, ⟨2015, 3, 1⟩, 1, 1, 100, false⟩, ⟨1, ⟨2016, 3, 1⟩, 1, 1, 150, false⟩]
        [⟨1, "PROD", 0, 1⟩] [⟨1, "A", "S", "D", 1⟩],
      g1.store_nbr = g2.store_nbr → g1.sales_year = g2.sales_year → g1 = g2) ∧
    ((q2Selected
        [⟨0, ⟨2015, 3, 1⟩, 1, 1, 100, false⟩, ⟨1, ⟨2016, 3, 1⟩, 1, 1, 150, false⟩]
        [⟨1, "PROD", 0, 1⟩] [⟨1, "A", "S", "D", 1⟩]).length ≤ 20 ∧
      List.Chain' growthDesc (q2Selected
        [⟨0, ⟨2015, 3, 1⟩, 1, 1, 100, false⟩, ⟨1, ⟨2016, 3, 1⟩, 1, 1, 150, false⟩]
        [⟨1, "PROD", 0, 1⟩] [⟨1, "A", "S", "D", 1⟩]) ∧
      q2Rows
        [⟨0, ⟨2015, 3, 1⟩, 1, 1, 100, false⟩, ⟨1, ⟨2016, 3, 1⟩, 1, 1, 150, false⟩]
        [⟨1, "PROD", 0, 1⟩] [⟨1, "A", "S", "D", 1⟩] = (q2Selected
        [⟨0, ⟨2015, 3, 1⟩, 1, 1, 100, false⟩, ⟨1, ⟨2016, 3, 1⟩, 1, 1, 150, false⟩]
        [⟨1, "PROD", 0, 1⟩] [⟨1, "A", "S", "D", 1⟩]).map q2Project ∧
      ∀ g ∈ q2Selected
        [⟨0, ⟨2015, 3, 1⟩, 1, 1, 100, false⟩, ⟨1, ⟨2016, 3, 1⟩, 1, 1, 150, false⟩]
        [⟨1, "PROD", 0, 1⟩] [⟨1, "A", "S", "D", 1⟩],
        g.sales_year = 2016 ∧
        ∃ b ∈ annualPerishable
          [⟨0, ⟨2015, 3, 1⟩, 1, 1, 100, false⟩, ⟨1, ⟨2016, 3, 1⟩, 1, 1, 150, false⟩]
          [⟨1, "PROD", 0, 1⟩] [⟨1, "A", "S", "D", 1⟩],
          b.store_nbr = g.store_nbr ∧ b.sales_year < g.sales_year ∧
          g.prev_year_sales = some b.total_perishable_sales ∧
          (∀ g2 ∈ annualPerishable
            [⟨0, ⟨2015, 3, 1⟩, 1, 1, 100, false⟩,
             ⟨1, ⟨2016, 3, 1⟩, 1, 1, 150, false⟩]
            [⟨1, "PROD", 0, 1⟩] [⟨1, "A", "S", "D", 1⟩],
            g2.store_nbr = g.store_nbr → g2.sales_year < g.sales_year →
            g2.sales_year ≤ b.sales_year) ∧
          (q2Project g).growth_pct = some (roundTo2
            ((g.total_perishable_sales - b.total_perishable_sales) /
              b.total_perishable_sales * 100))) :=
  ⟨by decide,
    C4_amended
      [⟨0, ⟨2015, 3, 1⟩, 1, 1, 100, false⟩, ⟨1, ⟨2016, 3, 1⟩, 1, 1, 150, false⟩]
      [⟨1, "PROD", 0, 1⟩] [⟨1, "A", "S", "D", 1⟩] (by decide)⟩

/-! ## C9 and C10: feedback delete-and-renumber -/

theorem assignIds_map_content (s : Nat) (l : List FeedbackRow) :
    (assignIds s l).map FeedbackRow.content = l.map FeedbackRow.content := by
  induction l generalizing s with
  | nil => rfl
  | cons r rest ih => simp [assignIds, FeedbackRow.content, ih]

theorem assignIds_map_id (s : Nat) (l : List FeedbackRow) :
    (assignIds s l).map FeedbackRow.id = List.range' s l.length := by
  induction l generalizing s with
  | nil => rfl
  | cons r rest ih => simp [assignIds, List.range', ih]

theorem mem_assignIds (s : Nat) (l : List FeedbackRow) (b : FeedbackRow)
    (hb : b ∈ assignIds s l) : ∃ a ∈ l, b.created_at = a.created_at := by
  induction l generalizing s with
  | nil => cases hb
  | cons r rest ih =>
    rcases List.mem_cons.mp hb with h | h
    · exact ⟨r, List.mem_cons_self r rest, by rw [h]⟩
    · rcases ih (s + 1) h with ⟨a, ha, hc⟩
      exact ⟨a, List.mem_cons_of_mem r ha, hc⟩

theorem assignIds_pairwise (s : Nat) (l : List FeedbackRow)
    (h : List.Pairwise createdLe l) :
    List.Pairwise createdLe (assignIds s l) := by
  induction l generalizing s with
  | nil => exact List.Pairwise.nil
  | cons r rest ih =>
    rcases List.pairwise_cons.mp h with ⟨hr, hrest⟩
    refine List.pairwise_cons.mpr ⟨?_, ih (s + 1) hrest⟩
    intro b hb
    rcases mem_assignIds (s + 1) rest b hb with ⟨a, ha, hc⟩
    show ({ r with id := s } : FeedbackRow).created_at ≤ b.created_at
    rw [hc]
    exact hr a ha

/-- The delete handler preserves the non-id columns of every surviving row
(as a multiset of rows). -/
theorem deleteFeedback_content_perm (delete_id : Nat) (table : List FeedbackRow) :
    ((deleteFeedback delete_id table).map FeedbackRow.content).Perm
      ((table.filter (fun r => r.id != delete_id)).map FeedbackRow.content) := by
  unfold deleteFeedback
  by_cases hemp : (table.filter (fun r => r.id != delete_id)).isEmpty
  · rw [List.isEmpty_iff] at hemp
    simp [hemp]
  · simp only [if_neg hemp, renumberFeedback, assignIds_map_content]
    exact (List.perm_insertionSort createdLe _).map FeedbackRow.content

/-- One occurrence of each id: deleting id `k` removes exactly one row when
the ids are `1..n`. -/
theorem filter_ne_length (k : Nat) (l : List FeedbackRow) :
    (l.filter (fun r => r.id != k)).length + (l.map FeedbackRow.id).count k =
      l.length := by
  induction l with
  | nil => rfl
  | cons r rest ih =>
    by_cases hk : r.id = k
    · simp [List.count_cons, hk, ← ih]
      omega
    · simp [List.count_cons, hk, List.filter_cons, ← ih]
      omega

/-- **C10.**  The delete-and-renumber pass modifies only the `id` column:
the multiset of `(created_at, user_name, page, rating, comment)` tuples of
the output rows is exactly that of the rows that were not selected for
deletion. -/
theorem C10_delete_frame (delete_id : Nat) (table : List FeedbackRow) :
    ((deleteFeedback delete_id table).map FeedbackRow.content).Perm
      ((table.filter (fun r => r.id != delete_id)).map FeedbackRow.content) :=
  deleteFeedback_content_perm delete_id table

/-! ## C5 and C6: Q1 Pareto classification and monotonicity -/

/-- **C5.**  In the Q1 Pareto result, an item aggregate whose cumulative
sales share (running total over the rows ordered by total sales
descending, divided by the grand total) is at most `0.80` is classified
into the core-revenue group, and one whose share exceeds `0.80` into the
long-tail group. -/
theorem C5_pareto_classification (train : List TrainRow) (items : List ItemRow)
    (r : Q1Row) (hr : r ∈ q1Rows train items) :
    (cumulativeShare (itemSales train items) r.total_sales ≤ 0.80 →
      r.pareto_group = "Top 80% (Core Revenue)") ∧
    (0.80 < cumulativeShare (itemSales train items) r.total_sales →
      r.pareto_group = "Bottom 20% (Dead Stock / Long Tail)") := by
  simp only [q1Rows, List.mem_map, List.mem_insertionSort] at hr
  obtain ⟨x, _, hxr⟩ := hr
  subst hxr
  simp only [cumulativeShare]
  constructor
  · intro hle
    show (if runningTotal (itemSales train items) x.total_sales /
        grandTotal (itemSales train items) ≤ 0.80 then
      "Top 80% (Core Revenue)" else "Bottom 20% (Dead Stock / Long Tail)") = _
    rw [if_pos hle]
  · intro hgt
    show (if runningTotal (itemSales train items) x.total_sales /
        grandTotal (itemSales train items) ≤ 0.80 then
      "Top 80% (Core Revenue)" else "Bottom 20% (Dead Stock / Long Tail)") = _
    rw [if_neg (not_le.mpr hgt)]

/-- **C5, witness**: two items with totals 8 and 2; the 8-total item has
cumulative share exactly 0.80 and lands in the core group, the 2-total
item has share 1.0 and lands in the long tail. -/
theorem C5_witness :
    ((⟨1, "A", 8, 80, "Top 80% (Core Revenue)"⟩ : Q1Row) ∈
      q1Rows [⟨0, ⟨2016, 1, 1⟩, 1, 1, 8, false⟩, ⟨1, ⟨2016, 1, 1⟩, 1, 2, 2, false⟩]
        [⟨1, "A", 0, 0⟩, ⟨2, "B", 0, 0⟩]) ∧
    ((cumulativeShare (itemSales
        [⟨0, ⟨2016, 1, 1⟩, 1, 1, 8, false⟩, ⟨1, ⟨2016, 1, 1⟩, 1, 2, 2, false⟩]
        [⟨1, "A", 0, 0⟩, ⟨2, "B", 0, 0⟩])
        (⟨1, "A", 8, 80, "Top 80% (Core Revenue)"⟩ : Q1Row).total_sales ≤ 0.80 →
      (⟨1, "A", 8, 80, "Top 80% (Core Revenue)"⟩ : Q1Row).pareto_group =
        "Top 80% (Core Revenue)") ∧
    (0.80 < cumulativeShare (itemSales
        [⟨0, ⟨2016, 1, 1⟩, 1, 1, 8, false⟩, ⟨1, ⟨2016, 1, 1⟩, 1, 2, 2, false⟩]
        [⟨1, "A", 0, 0⟩, ⟨2, "B", 0, 0⟩])
        (⟨1, "A", 8, 80, "Top 80% (Core Revenue)"⟩ : Q1Row).total_sales →
      (⟨1, "A", 8, 80, "Top 80% (Core Revenue)"⟩ : Q1Row).pareto_group =
        "Bottom 20% (Dead Stock / Long Tail)")) :=
  ⟨by decide, C5_pareto_classification _ _ _ (by decide)⟩

/-- **C6, counterexample.**  The claim asserts monotone non-decreasing
`cumulative_pct` for *every* input dataset.  With a negative item total
(net returns) it fails: totals `[10, -5]` give a grand total of 5 and
cumulative percentages `[200, 100]` in materialized order. -/
theorem C6_counterexample :
    ¬ List.Chain' (fun a b : Q1Row => a.cumulative_pct ≤ b.cumulative_pct)
      (q1Rows [⟨0, ⟨2016, 1, 1⟩, 1, 1, 10, false⟩, ⟨1, ⟨2016, 1, 1⟩, 1, 2, -5, false⟩]
        [⟨1, "A", 0, 0⟩, ⟨2, "B", 0, 0⟩]) := by
  intro h
  have h2 : List.Chain' (fun x y : ℚ => x ≤ y)
      ((q1Rows [⟨0, ⟨2016, 1, 1⟩, 1, 1, 10, false⟩,
          ⟨1, ⟨2016, 1, 1⟩, 1, 2, -5, false⟩]
        [⟨1, "A", 0, 0⟩, ⟨2, "B", 0, 0⟩]).map (fun r => r.cumulative_pct)) :=
    (List.chain'_map _).mpr h
  rw [show (q1Rows [⟨0, ⟨2016, 1, 1⟩, 1, 1, 10, false⟩,
        ⟨1, ⟨2016, 1, 1⟩, 1, 2, -5, false⟩]
      [⟨1, "A", 0, 0⟩, ⟨2, "B", 0, 0⟩]).map (fun r => r.cumulative_pct) =
        [200, 100] from by decide] at h2
  rcases List.chain'_cons.mp h2 with ⟨hle, _⟩
  norm_num at hle

theorem runningTotal_anti (sales : List ItemSalesRow)
    (hpos : ∀ r ∈ sales, 0 ≤ r.total_sales) {t u : ℚ} (h : u ≤ t) :
    runningTotal sales t ≤ runningTotal sales u := by
  unfold runningTotal
  apply List.Sublist.sum_le_sum
  · refine List.Sublist.map _ (List.monotone_filter_right sales ?_)
    intro a ha
    exact decide_eq_true (le_trans h (of_decide_eq_true ha))
  · intro a ha
    rcases List.mem_map.mp ha with ⟨x, hx, hxa⟩
    rw [← hxa]
    exact hpos x (List.mem_filter.mp hx).1

/-- **C6, amended.**  When every per-item total is non-negative and the
grand total is positive (in particular whenever all unit sales are
non-negative and some sale is positive), the `cumulative_pct` column of
`q1_pareto_analysis` is monotonically non-decreasing in the table's
materialized order (total sales descending). -/
theorem C6_amended (train : List TrainRow) (items : List ItemRow)
    (hpos : ∀ r ∈ itemSales train items, 0 ≤ r.total_sales)
    (hgrand : 0 < grandTotal (itemSales train items)) :
    List.Chain' (fun a b : Q1Row => a.cumulative_pct ≤ b.cumulative_pct)
      (q1Rows train items) := by
  unfold q1Rows
  rw [List.chain'_map]
  have hsorted : List.Pairwise q1TotalDesc
      (List.insertionSort q1TotalDesc (itemSales train items)) :=
    List.sorted_insertionSort q1TotalDesc (itemSales train items)
  refine List.Chain'.imp ?_ hsorted.chain'
  intro a b hab
  show roundTo2 _ ≤ roundTo2 _
  apply roundTo2_mono
  have hrun : runningTotal (itemSales train items) a.total_sales ≤
      runningTotal (itemSales train items) b.total_sales :=
    runningTotal_anti (itemSales train items) hpos hab
  have hdiv : runningTotal (itemSales train items) a.total_sales /
      grandTotal (itemSales train items) ≤
      runningTotal (itemSales train items) b.total_sales /
        grandTotal (itemSales train items) :=
    (div_le_div_iff_of_pos_right hgrand).mpr hrun
  exact mul_le_mul_of_nonneg_right hdiv (by norm_num)

/-- **C6, witness** for the amended theorem: totals 8 and 2 are
non-negative with a positive grand total, and the cumulative percentages
are non-decreasing in materialized order. -/
theorem C6_witness :
    (∀ r ∈ itemSales
        [⟨0, ⟨2016, 1, 1⟩, 1, 1, 8, false⟩, ⟨1, ⟨2016, 1, 1⟩, 1, 2, 2, false⟩]
        [⟨1, "A", 0, 0⟩, ⟨2, "B", 0, 0⟩], 0 ≤ r.total_sales) ∧
    (0 < grandTotal (itemSales
        [⟨0, ⟨2016, 1, 1⟩, 1, 1, 8, false⟩, ⟨1, ⟨2016, 1, 1⟩, 1, 2, 2, false⟩]
        [⟨1, "A", 0, 0⟩, ⟨2, "B", 0, 0⟩])) ∧
    List.Chain' (fun a b : Q1Row => a.cumulative_pct ≤ b.cumulative_pct)
      (q1Rows [⟨0, ⟨2016, 1, 1⟩, 1, 1, 8, false⟩, ⟨1, ⟨2016, 1, 1⟩, 1, 2, 2, false⟩]
        [⟨1, "A", 0, 0⟩, ⟨2, "B", 0, 0⟩]) :=
  ⟨by decide, by decide, C6_amended _ _ (by decide) (by decide)⟩

/-! ## C2: Q5 computes a maximum where the spec requires a mean -/

/-- **C2.**  The code's `q5_holiday_impact` disagrees with its own
documentation and the spec: with city `A` seeing national (non-transferred)
holidays on two days with total daily sales 10 and 30 (and one matching
local holiday day with sales 10), the emitted `national_holiday_avg` is 30
— the *maximum* daily sales (`MAX(CASE ...)` then `AVG` over the single
per-`(city, locale)` group) — while the arithmetic mean of the city's
daily sales over its national holiday days is 20. -/
theorem C2_max_not_mean :
    (q5Rows
        [⟨0, ⟨2016, 1, 1⟩, 1, 1, 10, false⟩, ⟨1, ⟨2016, 1, 2⟩, 1, 1, 30, false⟩]
        [⟨1, "A", "S", "D", 1⟩]
        [⟨⟨2016, 1, 1⟩, "Holiday", "National", "Ecuador", "x", false⟩,
         ⟨⟨2016, 1, 2⟩, "Holiday", "National", "Ecuador", "y", false⟩,
         ⟨⟨2016, 1, 1⟩, "Holiday", "Local", "A", "z", false⟩]).map
      (fun r => (r.city, r.national_holiday_avg, r.local_holiday_avg)) =
        [("A", some 30, 10)] ∧
    specNationalHolidayAvg
        [⟨0, ⟨2016, 1, 1⟩, 1, 1, 10, false⟩, ⟨1, ⟨2016, 1, 2⟩, 1, 1, 30, false⟩]
        [⟨1, "A", "S", "D", 1⟩]
        [⟨⟨2016, 1, 1⟩, "Holiday", "National", "Ecuador", "x", false⟩,
         ⟨⟨2016, 1, 2⟩, "Holiday", "National", "Ecuador", "y", false⟩,
         ⟨⟨2016, 1, 1⟩, "Holiday", "Local", "A", "z", false⟩] ("A") = some 20 ∧
    (some (30 : ℚ) ≠ some (20 : ℚ)) := by
  refine ⟨by decide, by decide, by decide⟩

/-- **C9.**  If the feedback table's ids are exactly `1..n` and a row with
id `k` is deleted, then the surviving rows come out with ids exactly
`1..n-1` (`List.range' 1 (n-1)`), assigned in ascending order of their
original `created_at` timestamps, and their non-id columns are the
survivors' columns unchanged. -/
theorem C9_renumber_dense (table : List FeedbackRow) (k : Nat)
    (hids : (table.map FeedbackRow.id).Perm (List.range' 1 table.length))
    (hk : k ∈ table.map FeedbackRow.id) :
    (deleteFeedback k table).map FeedbackRow.id =
        List.range' 1 (table.length - 1) ∧
    List.Pairwise createdLe (deleteFeedback k table) ∧
    ((deleteFeedback k table).map FeedbackRow.content).Perm
      ((table.filter (fun r => r.id != k)).map FeedbackRow.content) := by
  have hnodup : (table.map FeedbackRow.id).Nodup :=
    hids.nodup_iff.mpr (List.nodup_range' 1 table.length)
  have hcount : (table.map FeedbackRow.id).count k = 1 :=
    List.count_eq_one_of_mem hnodup hk
  have hlen : (table.filter (fun r => r.id != k)).length = table.length - 1 := by
    have := filter_ne_length k table
    omega
  refine ⟨?_, ?_, deleteFeedback_content_perm k table⟩
  · unfold deleteFeedback
    by_cases hemp : (table.filter (fun r => r.id != k)).isEmpty
    · rw [List.isEmpty_iff] at hemp
      rw [hemp] at hlen
      simp [hemp, ← hlen]
    · simp only [if_neg hemp, renumberFeedback, assignIds_map_id]
      rw [(List.perm_insertionSort createdLe _).length_eq, hlen]
  · unfold deleteFeedback
    by_cases hemp : (table.filter (fun r => r.id != k)).isEmpty
    · simp [hemp]
    · simp only [if_neg hemp, renumberFeedback]
      exact assignIds_pairwise 1 _ (List.sorted_insertionSort createdLe _)

/-- **C9, witness**: a three-row table with ids `1..3` (stored out of
timestamp order); deleting id 2 leaves ids `[1, 2]` assigned by ascending
`created_at`. -/
theorem C9_witness :
    (([⟨1, 30, "ann", "Overview", 5, "a"⟩,
       ⟨2, 10, "bob", "General", 4, "b"⟩,
       ⟨3, 20, "cyd", "General", 3, "c"⟩] : List FeedbackRow).map
        FeedbackRow.id).Perm (List.range' 1 3) ∧
    (2 ∈ ([⟨1, 30, "ann", "Overview", 5, "a"⟩,
       ⟨2, 10, "bob", "General", 4, "b"⟩,
       ⟨3, 20, "cyd", "General", 3, "c"⟩] : List FeedbackRow).map
        FeedbackRow.id) ∧
    ((deleteFeedback 2 [⟨1, 30, "ann", "Overview", 5, "a"⟩,
       ⟨2, 10, "bob", "General", 4, "b"⟩,
       ⟨3, 20, "cyd", "General", 3, "c"⟩]).map FeedbackRow.id =
        List.range' 1 2 ∧
      List.Pairwise createdLe (deleteFeedback 2
        [⟨1, 30, "ann", "Overview", 5, "a"⟩,
         ⟨2, 10, "bob", "General", 4, "b"⟩,
         ⟨3, 20, "cyd", "General", 3, "c"⟩]) ∧
      ((deleteFeedback 2 [⟨1, 30, "ann", "Overview", 5, "a"⟩,
         ⟨2, 10, "bob", "General", 4, "b"⟩,
         ⟨3, 20, "cyd", "General", 3, "c"⟩]).map FeedbackRow.content).Perm
        (([⟨1, 30, "ann", "Overview", 5, "a"⟩,
           ⟨2, 10, "bob", "General", 4, "b"⟩,
           ⟨3, 20, "cyd", "General", 3, "c"⟩].filter
             (fun r => r.id != 2)).map FeedbackRow.content)) := by
  refine ⟨by decide, by decide, C9_renumber_dense _ 2 (by decide) (by decide)⟩

end

end BigData
